import Mathlib

/-!
Shallow embedding of the sd-bus connection engine
(src/libsystemd-bus/sd-bus.c) for checking the natural-language
specification.  Machine integers are modelled as `Nat` with explicit
`% 2^64` where overflow matters; C return codes are `Int` (negative
errno on failure).  External collaborators that are not part of the
provided sources (the socket/kernel transports, the marshaller in
bus-message.c, the event loop, the match tree, the object tree) are
modelled as exogenous outcomes supplied through environment records;
each such definition carries a doc comment saying so.  User callbacks
are modelled as pure return codes indexed by a callback id: in the C
code a callback may additionally mutate the bus, which this embedding
does not model, so the `*_modified` restart flags of sd-bus.c stay
false and the corresponding do/while loops run exactly one pass.
-/

/-- Linux errno values used by sd-bus.c, as positive constants. -/
def eperm : Int := 1

def eio : Int := 5

def enxio : Int := 6

def echild : Int := 10

def enomem : Int := 12

def ebusy : Int := 16

def eexist : Int := 17

def einval : Int := 22

def enotsup : Int := 95

def enobufs : Int := 105

def enotconn : Int := 107

def econnrefused : Int := 111

/-- Largest value of a C uint64_t. -/
def UINT64_MAX : Nat := 2 ^ 64 - 1

/-- Modelled from the spec: BUS_WQUEUE_MAX is declared in
bus-internal.h, which is not among the provided sources; the spec only
says the send queue is bounded by a hard cap.  The concrete value is
irrelevant to the claims. -/
def BUS_WQUEUE_MAX : Nat := 1024

/-- Modelled from the spec: BUS_RQUEUE_MAX, the receive-queue hard cap
from bus-internal.h (not among the provided sources). -/
def BUS_RQUEUE_MAX : Nat := 64

/-- Modelled from the spec: the default reply timeout used when the
caller passes 0 (bus-internal.h, not among the provided sources). -/
def BUS_DEFAULT_TIMEOUT : Nat := 25 * 1000 * 1000

/-- Message types of the D-Bus wire protocol (sd-bus-protocol.h). -/
inductive MsgType
  | methodCall
  | methodReturn
  | methodError
  | signal
deriving DecidableEq, Repr

/-- Connection states of the sd_bus state machine (bus-internal.h). -/
inductive BusState
  | unset
  | opening
  | authenticating
  | hello
  | running
  | closed
deriving DecidableEq, Repr

/-- BUS_IS_OPEN from bus-internal.h: every state strictly between
BUS_UNSET and BUS_CLOSED. -/
def BUS_IS_OPEN (s : BusState) : Bool :=
  s ≠ BusState.unset && s ≠ BusState.closed

/-- An owned D-Bus message (struct sd_bus_message, bus-message.h).
Only the header fields the engine itself inspects are modelled; the
marshalled payload is abstracted to its byte size. -/
structure Message where
  type : MsgType
  version : Nat
  serial : Nat
  replySerial : Nat
  sealed : Bool
  noReplyExpected : Bool
  dontSend : Bool
  nFds : Nat
  size : Nat
  interface : Option String
  member : Option String
  path : Option String
  errorName : Option String
deriving DecidableEq, Repr

/-- struct reply_callback of sd-bus.c: the pending-reply record keyed
by outgoing serial.  The C function pointer and userdata are abstracted
to a callback id `cbId`; `timeout` is the absolute deadline (0 = no
timeout).  The prioq back-index is implicit in the list model. -/
structure ReplyCallback where
  cbId : Nat
  serial : Nat
  timeout : Nat
deriving DecidableEq, Repr

/-- struct filter_callback of sd-bus.c, with the callback abstracted to
an id and the `last_iteration` stamp kept. -/
structure FilterCallback where
  cbId : Nat
  lastIteration : Nat
deriving DecidableEq, Repr

/-- Transports recognized by bus_parse_next_address. -/
inductive Transport
  | unixT
  | tcpT
  | unixexecT
  | kernelT
  | containerT
deriving DecidableEq, Repr

/-- Which connect candidate the last successful parse produced.  In C
this is encoded by which of exec_path / kernel / machine / sockaddr is
set on the sd_bus object; bus_start_address tests them in that order,
and both unix: and tcp: segments set sockaddr. -/
inductive Cand
  | sock
  | exec
  | kern
  | container
deriving DecidableEq, Repr

/-- Candidate produced by a given transport (see parse_unix_address,
parse_tcp_address, parse_exec_address, parse_kernel_address,
parse_container_address: the first two fill sockaddr, the others fill
exec_path, kernel and machine respectively). -/
def transportCand : Transport → Cand
  | Transport.unixT => Cand.sock
  | Transport.tcpT => Cand.sock
  | Transport.unixexecT => Cand.exec
  | Transport.kernelT => Cand.kern
  | Transport.containerT => Cand.container

/-- The sd_bus connection object (struct sd_bus, bus-internal.h),
restricted to the fields the verified claims touch.  Queues are lists
(queue contents = wqueue[0 .. wqueue_size)); the reply-callback hashmap
is an association list with serial keys; the timeout prioq is a list
whose peek is the leftmost element minimal under timeout_compare. -/
structure SdBus where
  state : BusState
  originalPid : Nat
  serial : Nat
  messageVersion : Nat
  helloSerial : Nat
  isKernel : Bool
  canFds : Bool
  acceptFd : Bool
  busClient : Bool
  inputFd : Int
  outputFd : Int
  wqueue : List Message
  windex : Nat
  rqueue : List Message
  replyCallbacks : List ReplyCallback
  replyCallbacksPrioq : List ReplyCallback
  filterCallbacks : List FilterCallback
  iterationCounter : Nat
  processing : Bool
  eventAttached : Bool
  inputIoSource : Bool
  outputIoSource : Bool
  timeSource : Bool
  quitSource : Bool
  address : Option (List Char)
  addressIndex : Nat
  cand : Option Cand
  serverId : Nat
  lastConnectError : Nat
deriving DecidableEq, Repr

/-- bus_pid_changed from sd-bus.c: the process-identity guard compares
the pid recorded at construction with the current pid (getpid(),
passed in explicitly here). -/
def bus_pid_changed (bus : SdBus) (pid : Nat) : Bool :=
  bus.originalPid != pid

/-- Result of one bus_socket_read_message call (bus-socket.c is not
among the provided sources): a hard error, no data (would block),
progress without a complete message yet, or a complete message. -/
inductive ReadRes
  | rerr (e : Int)
  | rnone
  | rpart
  | rmsg (m : Message)
deriving Repr

/-- Result of one bus_socket_write_message / bus_kernel_write_message
call (bus-socket.c / bus-kernel.c are not among the provided sources):
a hard error, nothing written (would block), or progress leaving the
write cursor at the given index. -/
inductive WriteRes
  | werr (e : Int)
  | wblock
  | wadv (idx : Nat)
deriving Repr

/-- Exogenous behaviour driving a dispatch step: user-callback return
codes (indexed by callback id), the outcome of the external match-tree
walk and object dispatch, the current CLOCK_MONOTONIC time, and the
transport read/write outcomes consumed in order. -/
structure Env where
  replyRet : Nat → Int
  filterRet : Nat → Int
  matchRet : Int
  objectRet : Int
  now : Nat
  reads : List ReadRes
  writes : List WriteRes
  sendWrite : WriteRes
  ensureRunningRet : Int
  socketProcRet : Int

/-- Observable callback invocations recorded by the model. -/
inductive Event
  | replyCb (cbId serial : Nat)
  | timeoutCb (cbId serial : Nat)
  | filterCb (cbId : Nat)
  | matchRun
  | objectRun
deriving DecidableEq, Repr

/-- hashmap_remove on the serial-keyed reply-callback hashmap: remove
and return the first record with the given serial (keys are unique in
any reachable bus, hashmap_put rejects duplicates). -/
def hashmap_remove : List ReplyCallback → Nat → Option ReplyCallback × List ReplyCallback
  | [], _ => (none, [])
  | c :: rest, s =>
    if c.serial = s then (some c, rest)
    else
      let p := hashmap_remove rest s
      (p.1, c :: p.2)

/-- Membership test on the reply-callback hashmap. -/
def hashmap_contains (l : List ReplyCallback) (s : Nat) : Bool :=
  l.any fun c => c.serial == s

/-- timeout_compare from sd-bus.c: the prioq comparator.  Entries with
timeout 0 order after every entry with a nonzero timeout; otherwise
deadlines ascending. -/
def timeout_compare (x y : ReplyCallback) : Int :=
  if x.timeout ≠ 0 ∧ y.timeout = 0 then -1
  else if x.timeout = 0 ∧ y.timeout ≠ 0 then 1
  else if x.timeout < y.timeout then -1
  else if x.timeout > y.timeout then 1
  else 0

/-- prioq peek/pop combined: the prioq of shared/prioq.c is a binary
heap whose peek is an element minimal under the comparator; the list
model picks the leftmost minimal element and also returns the list
with that element removed. -/
def prioq_popmin : List ReplyCallback → Option (ReplyCallback × List ReplyCallback)
  | [] => none
  | c :: rest =>
    match prioq_popmin rest with
    | none => some (c, [])
    | some (d, rest2) =>
      if timeout_compare c d ≤ 0 then some (c, rest) else some (d, c :: rest2)

/-- prioq_peek: the element prioq_popmin would remove. -/
def prioq_peek (l : List ReplyCallback) : Option ReplyCallback :=
  (prioq_popmin l).map Prod.fst

/-- prioq_remove via the back-index: in C this removes exactly the
record whose prioq_idx is stored in it; since serials are unique in any
reachable bus this is removal by serial. -/
def prioq_remove (l : List ReplyCallback) (s : Nat) : List ReplyCallback :=
  l.filter fun c => c.serial != s

/-- Membership test on the prioq. -/
def prioq_contains (l : List ReplyCallback) (s : Nat) : Bool :=
  l.any fun c => c.serial == s

/-- Modelled from the spec: bus_message_seal lives in bus-message.c,
which is not among the provided sources; per the spec, sealing assigns
the serial and freezes the message. -/
def bus_message_seal (m : Message) (serial : Nat) : Message :=
  { m with serial := serial, sealed := true }

/-- bus_seal_message from sd-bus.c: reject messages of a newer protocol
version, do nothing on an already sealed message, otherwise seal with
the incremented outgoing serial counter (a C uint64_t). -/
def bus_seal_message (b : SdBus) (m : Message) : Except Int (SdBus × Message) :=
  if m.version > b.messageVersion then Except.error (-eperm)
  else if m.sealed then Except.ok (b, m)
  else
    let s := (b.serial + 1) % 2 ^ 64
    Except.ok ({ b with serial := s }, bus_message_seal m s)

/-- sd_bus_detach_event from sd-bus.c: fails with -enxio when no event
loop is attached, otherwise drops every event source and the event
reference. -/
def sd_bus_detach_event (bus : SdBus) : SdBus × Int :=
  if ¬ bus.eventAttached then (bus, -enxio)
  else
    ({ bus with
        eventAttached := false
        inputIoSource := false
        outputIoSource := false
        timeSource := false
        quitSource := false }, 0)

/-- bus_close_fds (sd-bus.c): close and forget both transport fds. -/
def bus_close_fds (bus : SdBus) : SdBus :=
  { bus with inputFd := -1, outputFd := -1 }

/-- sd_bus_close from sd-bus.c: idempotent, silently ignores a pid
mismatch (void return), marks the bus closed, detaches from the event
loop and closes the fds unless this is a kernel connection. -/
def sd_bus_close (bus : SdBus) (pid : Nat) : SdBus :=
  if bus.state = BusState.closed then bus
  else if bus_pid_changed bus pid then bus
  else
    let b := { bus with state := BusState.closed }
    let b := (sd_bus_detach_event b).1
    if ¬ b.isKernel then bus_close_fds b else b

/-- Modelled from the spec: bus_type_is_valid checks a D-Bus type
character; it is declared outside the provided sources.  Struct and
dict-entry framing codes are irrelevant to the claims. -/
def bus_type_is_valid (c : Char) : Bool :=
  c ∈ ['y', 'b', 'n', 'q', 'i', 'u', 'x', 't', 'd', 's', 'o', 'g', 'a', 'v', 'h']

/-- The D-Bus type character for a unix fd. -/
def SD_BUS_TYPE_UNIX_FD : Char := 'h'

/-- bus_ensure_running from sd-bus.c: not connected outside the open
states, immediate success when already running; in the intermediate
states the C code drives a blocking sd_bus_process loop whose outcome
is exogenous I/O and is supplied by the environment. -/
def bus_ensure_running (env : Env) (bus : SdBus) : Int :=
  if bus.state = BusState.unset ∨ bus.state = BusState.closed then -enotconn
  else if bus.state = BusState.running then 1
  else env.ensureRunningRet

/-- sd_bus_can_send from sd-bus.c: for the unix-fd type, requires the
accept-fd hello flag, a running connection and a peer that negotiated
fd passing; for any other type defers to type validity. -/
def sd_bus_can_send (env : Env) (bus : SdBus) (pid : Nat) (type : Char) : Int :=
  if bus.state = BusState.unset then -enotconn
  else if bus_pid_changed bus pid then -echild
  else if type = SD_BUS_TYPE_UNIX_FD then
    if ¬ bus.acceptFd then 0
    else
      let r := bus_ensure_running env bus
      if r < 0 then r
      else if bus.canFds then 1 else 0
  else if bus_type_is_valid type then 1 else 0

/-- sd_bus_send from sd-bus.c.  `wantSerial` models whether the caller
passed a serial out-pointer; the (possibly sealed) message is returned
alongside the new bus state and the return code.  Allocation failures
(realloc of the queue) are not modelled. -/
def sd_bus_send (env : Env) (bus : SdBus) (m : Message) (pid : Nat) (wantSerial : Bool) :
    SdBus × Message × Int :=
  if ¬ BUS_IS_OPEN bus.state then (bus, m, -enotconn)
  else if bus_pid_changed bus pid then (bus, m, -echild)
  else
    let fdCheck : Option Int :=
      if m.nFds > 0 then
        let r := sd_bus_can_send env bus pid SD_BUS_TYPE_UNIX_FD
        if r < 0 then some r else if r = 0 then some (-enotsup) else none
      else none
    match fdCheck with
    | some e => (bus, m, e)
    | none =>
      let m := if ¬ wantSerial ∧ ¬ m.sealed then { m with noReplyExpected := true } else m
      match bus_seal_message bus m with
      | Except.error e => (bus, m, e)
      | Except.ok (bus, m) =>
        if m.dontSend ∧ ¬ wantSerial then (bus, m, 1)
        else if (bus.state = BusState.running ∨ bus.state = BusState.hello)
                ∧ bus.wqueue.length = 0 then
          match env.sendWrite with
          | WriteRes.werr e => (sd_bus_close bus pid, m, e)
          | WriteRes.wblock =>
            if ¬ bus.isKernel ∧ 0 < m.size then
              ({ bus with wqueue := [m], windex := 0 }, m, 1)
            else (bus, m, 1)
          | WriteRes.wadv idx =>
            if ¬ bus.isKernel ∧ idx < m.size then
              ({ bus with wqueue := [m], windex := idx }, m, 1)
            else (bus, m, 1)
        else
          if bus.wqueue.length ≥ BUS_WQUEUE_MAX then (bus, m, -enobufs)
          else ({ bus with wqueue := bus.wqueue ++ [m] }, m, 1)

/-- calc_elapse from sd-bus.c: `(uint64_t) -1` means no timeout (0), a
zero argument selects the default timeout, otherwise the deadline is
now plus the requested interval (uint64_t arithmetic). -/
def calc_elapse (env : Env) (usec : Nat) : Nat :=
  if usec = UINT64_MAX then 0
  else if usec = 0 then (env.now + BUS_DEFAULT_TIMEOUT) % 2 ^ 64
  else (env.now + usec) % 2 ^ 64

/-- sd_bus_send_with_reply_cancel from sd-bus.c: remove the pending
reply for the serial from the hashmap and, when it has a deadline, from
the prioq; returns 1 when a record was removed and 0 otherwise. -/
def sd_bus_send_with_reply_cancel (bus : SdBus) (pid : Nat) (serial : Nat) : SdBus × Int :=
  if serial = 0 then (bus, -einval)
  else if bus_pid_changed bus pid then (bus, -echild)
  else
    match hashmap_remove bus.replyCallbacks serial with
    | (none, _) => (bus, 0)
    | (some c, rest) =>
      let bus := { bus with replyCallbacks := rest }
      let bus :=
        if c.timeout ≠ 0 then
          { bus with replyCallbacksPrioq := prioq_remove bus.replyCallbacksPrioq c.serial }
        else bus
      (bus, 1)

/-- sd_bus_send_with_reply from sd-bus.c: validate, seal, register the
pending-reply record in the hashmap (and in the prioq when it has a
deadline), then send; on send failure the registration is rolled back
through sd_bus_send_with_reply_cancel.  Allocation failures are not
modelled; hashmap_put on a duplicate serial fails with -eexist. -/
def sd_bus_send_with_reply (env : Env) (bus : SdBus) (m : Message) (cbId : Nat)
    (usec : Nat) (pid : Nat) (wantSerial : Bool) : SdBus × Message × Int :=
  if ¬ BUS_IS_OPEN bus.state then (bus, m, -enotconn)
  else if m.type ≠ MsgType.methodCall then (bus, m, -einval)
  else if m.noReplyExpected then (bus, m, -einval)
  else if bus_pid_changed bus pid then (bus, m, -echild)
  else
    match bus_seal_message bus m with
    | Except.error e => (bus, m, e)
    | Except.ok (bus, m) =>
      let c : ReplyCallback :=
        { cbId := cbId, serial := m.serial, timeout := calc_elapse env usec }
      if hashmap_contains bus.replyCallbacks c.serial then (bus, m, -eexist)
      else
        let bus := { bus with replyCallbacks := bus.replyCallbacks ++ [c] }
        let bus :=
          if c.timeout ≠ 0 then
            { bus with replyCallbacksPrioq := bus.replyCallbacksPrioq ++ [c] }
          else bus
        let sres := sd_bus_send env bus m pid wantSerial
        if sres.2.2 < 0 then
          ((sd_bus_send_with_reply_cancel sres.1 pid c.serial).1, sres.2.1, sres.2.2)
        else sres

/-- sd_bus_add_filter from sd-bus.c: prepends a zero-stamped filter
record to the head of the filter list. -/
def sd_bus_add_filter (bus : SdBus) (pid : Nat) (cbId : Nat) : SdBus × Int :=
  if bus_pid_changed bus pid then (bus, -echild)
  else
    ({ bus with filterCallbacks := { cbId := cbId, lastIteration := 0 } :: bus.filterCallbacks },
     0)

/-- sd_bus_remove_filter from sd-bus.c: removes the first list entry
with matching callback and returns 1, or 0 when none matches. -/
def sd_bus_remove_filter (bus : SdBus) (pid : Nat) (cbId : Nat) : SdBus × Int :=
  if bus_pid_changed bus pid then (bus, -echild)
  else
    let rec go : List FilterCallback → Option (List FilterCallback)
      | [] => none
      | f :: fs =>
        if f.cbId = cbId then some fs
        else (go fs).map fun fs2 => f :: fs2
    match go bus.filterCallbacks with
    | none => (bus, 0)
    | some fs => ({ bus with filterCallbacks := fs }, 1)

/-- SD_BUS_ERROR_NO_REPLY, the error name synthesized on timeout. -/
def SD_BUS_ERROR_NO_REPLY : String := "org.freedesktop.DBus.Error.NoReply"

/-- Modelled from the spec: bus_message_new_synthetic_error lives in
bus-message.c, which is not among the provided sources; it builds a
sealed method-error message whose reply serial is the timed-out call
serial and whose error name and body are as given in the spec. -/
def bus_message_new_synthetic_error (serial : Nat) (errName : String) : Message :=
  { type := MsgType.methodError
    version := 1
    serial := 0
    replySerial := serial
    sealed := true
    noReplyExpected := true
    dontSend := false
    nFds := 0
    size := 1
    interface := none
    member := none
    path := none
    errorName := some errName }

/-- process_timeout from sd-bus.c: peek the prioq; if the deadline of
the minimal entry has passed, synthesize the NoReply error, pop the
entry, remove it from the hashmap and invoke its callback.  The
callback invocation is recorded as an event. -/
def process_timeout (env : Env) (bus : SdBus) : SdBus × Int × List Event :=
  match prioq_popmin bus.replyCallbacksPrioq with
  | none => (bus, 0, [])
  | some (c, rest) =>
    if c.timeout > env.now then (bus, 0, [])
    else
      let bus := { bus with
        replyCallbacksPrioq := rest
        replyCallbacks := (hashmap_remove bus.replyCallbacks c.serial).2 }
      let r := env.replyRet c.cbId
      (bus, if r < 0 then r else 1, [Event.timeoutCb c.cbId c.serial])

/-- Write loop of dispatch_wqueue from sd-bus.c, consuming one
exogenous transport outcome per iteration; an exhausted outcome trace
behaves as would-block. -/
def dispatch_wqueue_go (pid : Nat) (bus : SdBus) (ret : Int) :
    List WriteRes → SdBus × Int
  | [] => (bus, ret)
  | w :: ws =>
    match bus.wqueue with
    | [] => (bus, ret)
    | m :: rest =>
      match w with
      | WriteRes.werr e => (sd_bus_close bus pid, e)
      | WriteRes.wblock => (bus, ret)
      | WriteRes.wadv idx =>
        let bus := if ¬ bus.isKernel then { bus with windex := idx } else bus
        if bus.isKernel ∨ bus.windex ≥ m.size then
          dispatch_wqueue_go pid { bus with wqueue := rest, windex := 0 } 1 ws
        else
          dispatch_wqueue_go pid bus ret ws

/-- dispatch_wqueue from sd-bus.c: flush the send queue as far as the
transport allows; a hard write error closes the bus. -/
def dispatch_wqueue (env : Env) (bus : SdBus) (pid : Nat) : SdBus × Int :=
  dispatch_wqueue_go pid bus 0 env.writes

/-- Read loop of dispatch_rqueue from sd-bus.c, consuming one exogenous
transport outcome per iteration. -/
def dispatch_rqueue_go (pid : Nat) (bus : SdBus) (ret : Int) :
    List ReadRes → SdBus × Int × Option Message
  | [] => (bus, ret, none)
  | r :: rs =>
    match r with
    | ReadRes.rerr e => (sd_bus_close bus pid, e, none)
    | ReadRes.rnone => (bus, ret, none)
    | ReadRes.rpart => dispatch_rqueue_go pid bus 1 rs
    | ReadRes.rmsg m => (bus, 1, some m)

/-- dispatch_rqueue from sd-bus.c: pop a queued inbound message if one
exists, otherwise read from the transport until a complete message or
would-block; a hard read error closes the bus. -/
def dispatch_rqueue (env : Env) (bus : SdBus) (pid : Nat) : SdBus × Int × Option Message :=
  match bus.rqueue with
  | m :: rest => ({ bus with rqueue := rest }, 1, some m)
  | [] => dispatch_rqueue_go pid bus 0 env.reads

/-- process_hello from sd-bus.c: outside the Hello state let everything
through; in the Hello state the message must be a method return or
method error whose reply serial is the Hello call serial, anything else
is -EIO. -/
def process_hello (bus : SdBus) (m : Message) : Int :=
  if bus.state ≠ BusState.hello then 0
  else if m.type ≠ MsgType.methodReturn ∧ m.type ≠ MsgType.methodError then -eio
  else if m.replySerial ≠ bus.helloSerial then -eio
  else 0

/-- process_reply from sd-bus.c: on a method return or error whose
reply serial has a registered pending reply, remove the record from the
hashmap (and from the prioq when it carries a deadline), invoke the
callback and return its result.  sd_bus_message_rewind (bus-message.c,
not among the provided sources) is assumed to succeed. -/
def process_reply (env : Env) (bus : SdBus) (m : Message) : SdBus × Int × List Event :=
  if m.type ≠ MsgType.methodReturn ∧ m.type ≠ MsgType.methodError then (bus, 0, [])
  else
    match hashmap_remove bus.replyCallbacks m.replySerial with
    | (none, _) => (bus, 0, [])
    | (some c, rest) =>
      let bus := { bus with replyCallbacks := rest }
      let bus :=
        if c.timeout ≠ 0 then
          { bus with replyCallbacksPrioq := prioq_remove bus.replyCallbacksPrioq c.serial }
        else bus
      let r := env.replyRet c.cbId
      (bus, r, [Event.replyCb c.cbId c.serial])

/-- Scan of the filter list in process_filter (sd-bus.c): skip entries
already stamped with the current iteration, stamp and invoke the rest
in list order, stopping at the first nonzero return.  Model callbacks
cannot mutate the list, so filter_callbacks_modified stays false and
the enclosing do/while runs this single pass. -/
def process_filter_go (env : Env) (iter : Nat) :
    List FilterCallback → List FilterCallback × Int × List Event
  | [] => ([], 0, [])
  | f :: fs =>
    if f.lastIteration = iter then
      let p := process_filter_go env iter fs
      (f :: p.1, p.2.1, p.2.2)
    else
      let f2 := { f with lastIteration := iter }
      let r := env.filterRet f.cbId
      if r ≠ 0 then (f2 :: fs, r, [Event.filterCb f.cbId])
      else
        let p := process_filter_go env iter fs
        (f2 :: p.1, p.2.1, Event.filterCb f.cbId :: p.2.2)

/-- process_filter from sd-bus.c. -/
def process_filter (env : Env) (bus : SdBus) : SdBus × Int × List Event :=
  let p := process_filter_go env bus.iterationCounter bus.filterCallbacks
  ({ bus with filterCallbacks := p.1 }, p.2.1, p.2.2)

/-- process_match from sd-bus.c: run the match tree (bus_match_run
lives in bus-match.c, which is not among the provided sources, so its
outcome is exogenous); the model records that the walk ran. -/
def process_match (env : Env) (bus : SdBus) : SdBus × Int × List Event :=
  (bus, env.matchRet, [Event.matchRun])

/-- Modelled from the spec: sd_bus_message_new_method_return and
sd_bus_message_new_method_errorf live in bus-message.c, which is not
among the provided sources; a reply is an unsealed message of the given
type whose reply serial is the serial of the call. -/
def bus_reply_message (m : Message) (t : MsgType) (errName : Option String) : Message :=
  { type := t
    version := 1
    serial := 0
    replySerial := m.serial
    sealed := false
    noReplyExpected := true
    dontSend := false
    nFds := 0
    size := 1
    interface := none
    member := none
    path := none
    errorName := errName }

/-- SD_BUS_ERROR_UNKNOWN_METHOD. -/
def SD_BUS_ERROR_UNKNOWN_METHOD : String := "org.freedesktop.DBus.Error.UnknownMethod"

/-- SD_BUS_ERROR_UNKNOWN_OBJECT. -/
def SD_BUS_ERROR_UNKNOWN_OBJECT : String := "org.freedesktop.DBus.Error.UnknownObject"

/-- process_builtin from sd-bus.c: answer method calls on
org.freedesktop.DBus.Peer (Ping, GetMachineId, otherwise
UnknownMethod); calls flagged no-reply-expected are swallowed.
sd_id128_get_machine is assumed to succeed. -/
def process_builtin (env : Env) (bus : SdBus) (pid : Nat) (m : Message) :
    SdBus × Int × List Event :=
  if m.type ≠ MsgType.methodCall then (bus, 0, [])
  else if m.interface ≠ some "org.freedesktop.DBus.Peer" then (bus, 0, [])
  else if m.noReplyExpected then (bus, 1, [])
  else
    let reply :=
      if m.member = some "Ping" then bus_reply_message m MsgType.methodReturn none
      else if m.member = some "GetMachineId" then bus_reply_message m MsgType.methodReturn none
      else bus_reply_message m MsgType.methodError (some SD_BUS_ERROR_UNKNOWN_METHOD)
    let s := sd_bus_send env bus reply pid false
    if s.2.2 < 0 then (s.1, s.2.2, []) else (s.1, 1, [])

/-- Modelled from the spec: bus_process_object (object-tree dispatch,
spec section 4.6f) lives in a file that is not among the provided
sources; its outcome is exogenous and the model records that it ran. -/
def bus_process_object (env : Env) (bus : SdBus) : SdBus × Int × List Event :=
  (bus, env.objectRet, [Event.objectRun])

/-- Handler chain of process_message from sd-bus.c after the Hello
gate: reply correlation, filters, matches, builtins, object dispatch,
stopping at the first nonzero result. -/
def process_message_rest (env : Env) (bus : SdBus) (pid : Nat) (m : Message) :
    SdBus × Int × List Event :=
  let p1 := process_reply env bus m
  if p1.2.1 ≠ 0 then p1
  else
    let p2 := process_filter env p1.1
    if p2.2.1 ≠ 0 then (p2.1, p2.2.1, p1.2.2 ++ p2.2.2)
    else
      let p3 := process_match env p2.1
      if p3.2.1 ≠ 0 then (p3.1, p3.2.1, p1.2.2 ++ p2.2.2 ++ p3.2.2)
      else
        let p4 := process_builtin env p3.1 pid m
        if p4.2.1 ≠ 0 then (p4.1, p4.2.1, p1.2.2 ++ p2.2.2 ++ p3.2.2 ++ p4.2.2)
        else
          let p5 := bus_process_object env p4.1
          (p5.1, p5.2.1, p1.2.2 ++ p2.2.2 ++ p3.2.2 ++ p4.2.2 ++ p5.2.2)

/-- process_message from sd-bus.c: bump the iteration counter, apply
the Hello gate, then run the handler chain. -/
def process_message (env : Env) (bus : SdBus) (pid : Nat) (m : Message) :
    SdBus × Int × List Event :=
  let bus := { bus with iterationCounter := bus.iterationCounter + 1 }
  let r := process_hello bus m
  if r ≠ 0 then (bus, r, [])
  else process_message_rest env bus pid m

/-- process_running from sd-bus.c: expire timeouts, flush the send
queue, fetch one inbound message, run it through the handler chain;
an unhandled method call is answered with UnknownObject when the
caller did not ask for the message back.  `wantRet` models a non-null
ret pointer; the returned Option Message is the message handed back to
the caller. -/
def process_running (env : Env) (bus : SdBus) (pid : Nat) (wantRet : Bool) :
    SdBus × Int × Option Message × List Event :=
  let t := process_timeout env bus
  if t.2.1 ≠ 0 then (t.1, t.2.1, none, t.2.2)
  else
    let w := dispatch_wqueue env t.1 pid
    if w.2 ≠ 0 then (w.1, w.2, none, t.2.2)
    else
      let d := dispatch_rqueue env w.1 pid
      if d.2.1 < 0 then (d.1, d.2.1, none, t.2.2)
      else
        match d.2.2 with
        | none => (d.1, d.2.1, none, t.2.2)
        | some m =>
          let p := process_message env d.1 pid m
          if p.2.1 ≠ 0 then (p.1, p.2.1, none, t.2.2 ++ p.2.2)
          else if wantRet then (p.1, 1, some m, t.2.2 ++ p.2.2)
          else if m.type = MsgType.methodCall then
            let reply := bus_reply_message m MsgType.methodError (some SD_BUS_ERROR_UNKNOWN_OBJECT)
            let s := sd_bus_send env p.1 reply pid false
            if s.2.2 < 0 then (s.1, s.2.2, none, t.2.2 ++ p.2.2)
            else (s.1, 1, none, t.2.2 ++ p.2.2)
          else (p.1, 1, none, t.2.2 ++ p.2.2)

/-- sd_bus_process from sd-bus.c: the single public dispatch step.
Fails with -ECHILD across a fork, -EBUSY on re-entry, -ENOTCONN when
unset or closed; Opening and Authenticating are driven by bus-socket.c
(not among the provided sources, outcome exogenous); Hello and Running
delegate to process_running under the re-entry guard. -/
def sd_bus_process (env : Env) (bus : SdBus) (pid : Nat) (wantRet : Bool) :
    SdBus × Int × Option Message × List Event :=
  if bus_pid_changed bus pid then (bus, -echild, none, [])
  else if bus.processing then (bus, -ebusy, none, [])
  else
    match bus.state with
    | BusState.unset => (bus, -enotconn, none, [])
    | BusState.closed => (bus, -enotconn, none, [])
    | BusState.opening =>
      if env.socketProcRet < 0 then (bus, env.socketProcRet, none, [])
      else (bus, env.socketProcRet, none, [])
    | BusState.authenticating =>
      if env.socketProcRet < 0 then (bus, env.socketProcRet, none, [])
      else (bus, env.socketProcRet, none, [])
    | BusState.running =>
      let bus := { bus with processing := true }
      let p := process_running env bus pid wantRet
      ({ p.1 with processing := false }, p.2.1, p.2.2.1, p.2.2.2)
    | BusState.hello =>
      let bus := { bus with processing := true }
      let p := process_running env bus pid wantRet
      ({ p.1 with processing := false }, p.2.1, p.2.2.1, p.2.2.2)

/-- Outcomes of the sd-event operations used by sd_bus_attach_event
(sd-event is referenced only through src/systemd/sd-event.h; the
implementation is not among the provided sources). -/
structure EvEnv where
  addIoRet : Int
  ioPrioRet : Int
  addIoRet2 : Int
  ioPrioRet2 : Int
  setPrepareRet : Int
  addMonotonicRet : Int
  timePrioRet : Int
  addQuitRet : Int

/-- sd_bus_attach_event from sd-bus.c: installs I/O, timer and quit
sources on the external reactor, rolling everything back through
sd_bus_detach_event on the first failure.  Note that, unlike the other
public entry points, the function performs no bus_pid_changed check;
the `pid` argument is accepted for uniformity and never read. -/
def sd_bus_attach_event (ev : EvEnv) (bus : SdBus) (_pid : Nat) : SdBus × Int :=
  if bus.eventAttached then (bus, -ebusy)
  else
    let b := { bus with eventAttached := true }
    if ev.addIoRet < 0 then ((sd_bus_detach_event b).1, ev.addIoRet)
    else
      let b := { b with inputIoSource := true }
      if ev.ioPrioRet < 0 then ((sd_bus_detach_event b).1, ev.ioPrioRet)
      else
        let step2 : SdBus × Option Int :=
          if bus.outputFd ≠ bus.inputFd then
            if ev.addIoRet2 < 0 then (b, some ev.addIoRet2)
            else
              let b2 := { b with outputIoSource := true }
              if ev.ioPrioRet2 < 0 then (b2, some ev.ioPrioRet2) else (b2, none)
          else (b, none)
        match step2 with
        | (b, some e) => ((sd_bus_detach_event b).1, e)
        | (b, none) =>
          if ev.setPrepareRet < 0 then ((sd_bus_detach_event b).1, ev.setPrepareRet)
          else if ev.addMonotonicRet < 0 then ((sd_bus_detach_event b).1, ev.addMonotonicRet)
          else
            let b := { b with timeSource := true }
            if ev.timePrioRet < 0 then ((sd_bus_detach_event b).1, ev.timePrioRet)
            else if ev.addQuitRet < 0 then ((sd_bus_detach_event b).1, ev.addQuitRet)
            else ({ b with quitSource := true }, 0)

/-- Exogenous outcomes of the per-transport segment parsers and the
transport dialers used by the address engine.  parse_unix_address,
parse_tcp_address, parse_exec_address, parse_kernel_address and
parse_container_address are in sd-bus.c but operate on C strings with
percent decoding and resolver calls; their outcome on a given segment
(the rest of the address after the segment, plus an optional guid) is
abstracted here.  bus_socket_connect, bus_socket_exec,
bus_kernel_connect and bus_container_connect live in bus-socket.c /
bus-kernel.c / bus-container.c, which are not among the provided
sources. -/
structure AddrEnv where
  parse : Transport → List Char → Except Int (List Char × Option (List Char))
  id128FromString : List Char → Except Int Nat
  connect : Cand → Int

/-- bus_reset_parsed_address from sd-bus.c: forget the parsed candidate
and the server id. -/
def bus_reset_parsed_address (b : SdBus) : SdBus :=
  { b with cand := none, serverId := 0 }

/-- One successful scan outcome of the while loop in
bus_parse_next_address: the recognized transport (none when the loop
ran off the end of the string over separators), the guid key if the
segment carried one, and the rest of the address string. -/
structure ScanHit where
  transport : Option Transport
  guid : Option (List Char)
  rest : List Char
deriving Repr

/-- The while loop of bus_parse_next_address from sd-bus.c: skip
semicolons, dispatch on the five recognized transport prefixes
(propagating parser errors), skip unrecognized segments to the next
semicolon, and report exhaustion (`none`, C return 0) when no further
semicolon exists. -/
def scanAddress (env : AddrEnv) (l : List Char) : Except Int (Option ScanHit) :=
  match l with
  | [] => Except.ok (some { transport := none, guid := none, rest := [] })
  | c :: rest =>
    if c = ';' then scanAddress env rest
    else if "unix:".toList.isPrefixOf l then
      match env.parse Transport.unixT (l.drop 5) with
      | Except.error e => Except.error e
      | Except.ok (r, g) =>
        Except.ok (some { transport := some Transport.unixT, guid := g, rest := r })
    else if "tcp:".toList.isPrefixOf l then
      match env.parse Transport.tcpT (l.drop 4) with
      | Except.error e => Except.error e
      | Except.ok (r, g) =>
        Except.ok (some { transport := some Transport.tcpT, guid := g, rest := r })
    else if "unixexec:".toList.isPrefixOf l then
      match env.parse Transport.unixexecT (l.drop 9) with
      | Except.error e => Except.error e
      | Except.ok (r, g) =>
        Except.ok (some { transport := some Transport.unixexecT, guid := g, rest := r })
    else if "kernel:".toList.isPrefixOf l then
      match env.parse Transport.kernelT (l.drop 7) with
      | Except.error e => Except.error e
      | Except.ok (r, g) =>
        Except.ok (some { transport := some Transport.kernelT, guid := g, rest := r })
    else if "x-container:".toList.isPrefixOf l then
      match env.parse Transport.containerT (l.drop 12) with
      | Except.error e => Except.error e
      | Except.ok (r, g) =>
        Except.ok (some { transport := some Transport.containerT, guid := g, rest := r })
    else
      let l2 := rest.dropWhile (· ≠ ';')
      if l2 = [] then Except.ok none
      else scanAddress env l2
termination_by l.length
decreasing_by
  all_goals simp_wf
  all_goals
    first
    | omega
    | · have hle := (@List.dropWhile_sublist _ rest fun x => !decide (x = ';')).length_le
        omega

/-- bus_parse_next_address from sd-bus.c: stateful advance over the
address string.  Returns 0 when the address is null or exhausted,
propagates segment-parser and guid-parser errors, and on success
records the candidate, the server id from the guid, and the new
cursor, returning 1. -/
def bus_parse_next_address (env : AddrEnv) (b : SdBus) : SdBus × Int :=
  match b.address with
  | none => (b, 0)
  | some addr =>
    let rem := addr.drop b.addressIndex
    if rem = [] then (b, 0)
    else
      let b := bus_reset_parsed_address b
      match scanAddress env rem with
      | Except.error e => (b, e)
      | Except.ok none => (b, 0)
      | Except.ok (some hit) =>
        let b :=
          match hit.transport with
          | none => b
          | some t => { b with cand := some (transportCand t) }
        match hit.guid with
        | some g =>
          match env.id128FromString g with
          | Except.error e => (b, e)
          | Except.ok v =>
            ({ b with serverId := v, addressIndex := addr.length - hit.rest.length }, 1)
        | none => ({ b with addressIndex := addr.length - hit.rest.length }, 1)

/-- bus_start_address from sd-bus.c: close, dial the current candidate
(recording a failed dialer result in last_connect_error), and on
failure advance to the next parsed segment; a parse error is returned
as is, and exhaustion returns the last recorded connect error or
-ECONNREFUSED when none was recorded.  The C for(;;) loop is given
explicit fuel; `none` means the fuel ran out. -/
def bus_start_address (env : AddrEnv) (pid : Nat) :
    Nat → SdBus → Option (SdBus × Int)
  | 0, _ => none
  | Nat.succ fuel, b0 =>
    let b1 := sd_bus_close b0 pid
    let tryConn : SdBus × Option Int :=
      match b1.cand with
      | none => (b1, none)
      | some c =>
        let r := env.connect c
        if 0 ≤ r then (b1, some r)
        else ({ b1 with lastConnectError := (-r).toNat }, none)
    match tryConn with
    | (b2, some r) => some (b2, r)
    | (b2, none) =>
      let pr := bus_parse_next_address env b2
      if pr.2 < 0 then some pr
      else if pr.2 = 0 then
        some (pr.1,
          if pr.1.lastConnectError ≠ 0 then -(pr.1.lastConnectError : Int) else -econnrefused)
      else bus_start_address env pid fuel pr.1

/-- Concrete message fixture used by witnesses and counterexamples. -/
def mkMsg (t : MsgType) (serial replySerial : Nat) : Message :=
  { type := t
    version := 1
    serial := serial
    replySerial := replySerial
    sealed := true
    noReplyExpected := false
    dontSend := false
    nFds := 0
    size := 16
    interface := none
    member := none
    path := none
    errorName := none }

/-- Concrete bus fixture used by witnesses and counterexamples. -/
def mkBus (st : BusState) : SdBus :=
  { state := st
    originalPid := 100
    serial := 4
    messageVersion := 1
    helloSerial := 1
    isKernel := false
    canFds := false
    acceptFd := true
    busClient := true
    inputFd := 3
    outputFd := 3
    wqueue := []
    windex := 0
    rqueue := []
    replyCallbacks := []
    replyCallbacksPrioq := []
    filterCallbacks := []
    iterationCounter := 0
    processing := false
    eventAttached := false
    inputIoSource := false
    outputIoSource := false
    timeSource := false
    quitSource := false
    address := none
    addressIndex := 0
    cand := none
    serverId := 0
    lastConnectError := 0 }

/-- Concrete quiescent environment fixture: callbacks return 0, the
match walk and object dispatch return 0, the transport blocks. -/
def mkEnv : Env :=
  { replyRet := fun _ => 0
    filterRet := fun _ => 0
    matchRet := 0
    objectRet := 0
    now := 0
    reads := []
    writes := []
    sendWrite := WriteRes.wblock
    ensureRunningRet := 1
    socketProcRet := 0 }

/-- Concrete event-loop environment in which every reactor operation
succeeds. -/
def evAllOk : EvEnv :=
  { addIoRet := 0
    ioPrioRet := 0
    addIoRet2 := 0
    ioPrioRet2 := 0
    setPrepareRet := 0
    addMonotonicRet := 0
    timePrioRet := 0
    addQuitRet := 0 }

/-- Repeated filter registration through sd_bus_add_filter, in the
order the user calls it. -/
def registerFilters (bus : SdBus) (pid : Nat) (cbs : List Nat) : SdBus :=
  cbs.foldl (fun b cb => (sd_bus_add_filter b pid cb).1) bus

/-- Iterated timeout-expiry steps: what repeated process_timeout calls
(one per sd_bus_process invocation) do to the bus, with all emitted
callback invocations collected. -/
def process_timeout_steps (env : Env) : Nat → SdBus → SdBus × List Event
  | 0, bus => (bus, [])
  | Nat.succ n, bus =>
    let t := process_timeout env bus
    let rest := process_timeout_steps env n t.1
    (rest.1, t.2.2 ++ rest.2)

/-- The operations that can touch a pending-reply record after it has
been registered: delivery of an inbound message, timeout expiry, and
cancellation. -/
inductive BusOp
  | deliver (m : Message)
  | expire
  | cancelSerial (s : Nat)

/-- One operation step on the reply-correlation structures. -/
def runBusOp (env : Env) (pid : Nat) (bus : SdBus) : BusOp → SdBus × List Event
  | BusOp.deliver m =>
    let p := process_reply env bus m
    (p.1, p.2.2)
  | BusOp.expire =>
    let p := process_timeout env bus
    (p.1, p.2.2)
  | BusOp.cancelSerial s => ((sd_bus_send_with_reply_cancel bus pid s).1, [])

/-- A sequence of operation steps with all emitted callback invocations
collected. -/
def runBusOps (env : Env) (pid : Nat) : List BusOp → SdBus → SdBus × List Event
  | [], bus => (bus, [])
  | op :: ops, bus =>
    let p := runBusOp env pid bus op
    let rest := runBusOps env pid ops p.1
    (rest.1, p.2 ++ rest.2)

/-- The pending-reply serial an event belongs to, if any. -/
def eventSerial : Event → Option Nat
  | Event.replyCb _ s => some s
  | Event.timeoutCb _ s => some s
  | _ => none

def busW3 : SdBus :=
  { mkBus BusState.running with
      replyCallbacks := [{ cbId := 7, serial := 5, timeout := 100 }]
      replyCallbacksPrioq := [{ cbId := 7, serial := 5, timeout := 100 }] }

def busW9 : SdBus := { mkBus BusState.running with wqueue := [mkMsg MsgType.signal 1 0] }

def msgW9 : Message := mkMsg MsgType.methodCall 9 0

def busW10 : SdBus := { mkBus BusState.running with iterationCounter := 1 }

def busW1 : SdBus := mkBus BusState.hello

def msgW1 : Message := mkMsg MsgType.signal 9 0

def busX1 : SdBus := { mkBus BusState.hello with rqueue := [mkMsg MsgType.signal 9 0] }

def busW2 : SdBus :=
  { mkBus BusState.running with
      replyCallbacks := [{ cbId := 7, serial := 5, timeout := 100 }]
      replyCallbacksPrioq := [{ cbId := 7, serial := 5, timeout := 100 }]
      filterCallbacks := [{ cbId := 8, lastIteration := 0 }] }

def msgW2 : Message := mkMsg MsgType.methodReturn 2 5

def busX2 : SdBus :=
  { mkBus BusState.running with
      replyCallbacks := [{ cbId := 7, serial := 5, timeout := 0 }]
      filterCallbacks := [{ cbId := 8, lastIteration := 0 }] }

def busW5 : SdBus :=
  { mkBus BusState.running with wqueue := List.replicate 1024 (mkMsg MsgType.signal 1 0) }

def msgW5 : Message := { mkMsg MsgType.methodCall 0 0 with sealed := false }

def busW7 : SdBus := mkBus BusState.running

def busW8 : SdBus := mkBus BusState.running

def addrEnvW4 : AddrEnv :=
  { parse := fun _ l => Except.ok (l.dropWhile (· ≠ ';'), none)
    id128FromString := fun _ => Except.ok 1
    connect := fun _ => -7 }

def busW4 : SdBus := { mkBus BusState.unset with cand := some Cand.sock }

def addrEnvX4 : AddrEnv :=
  { parse := fun t l =>
      if t = Transport.unixT ∧ l.take 3 = "bad".toList then Except.error (-einval)
      else Except.ok ([], none)
    id128FromString := fun _ => Except.ok 1
    connect := fun _ => 0 }

def busX4 : SdBus :=
  { mkBus BusState.unset with address := some "unix:bad;unix:path=/tmp/bus".toList }

def busW6 : SdBus := mkBus BusState.running

def msgW6 : Message := { mkMsg MsgType.methodCall 0 0 with sealed := false }

theorem hashmap_remove_found {l : List ReplyCallback} {s : Nat} {c : ReplyCallback}
    (h : (hashmap_remove l s).1 = some c) : c.serial = s ∧ c ∈ l := by
  induction l with
  | nil => simp [hashmap_remove] at h
  | cons d rest ih =>
    by_cases hd : d.serial = s
    · simp [hashmap_remove, hd] at h
      subst h
      exact ⟨hd, List.mem_cons_self _ _⟩
    · simp [hashmap_remove, hd] at h
      obtain ⟨h1, h2⟩ := ih h
      exact ⟨h1, List.mem_cons_of_mem _ h2⟩

theorem hashmap_remove_none {l : List ReplyCallback} {s : Nat}
    (h : (hashmap_remove l s).1 = none) : hashmap_contains l s = false := by
  induction l with
  | nil => simp [hashmap_contains]
  | cons d rest ih =>
    by_cases hd : d.serial = s
    · simp [hashmap_remove, hd] at h
    · simp only [hashmap_remove, hd, if_false] at h
      have h2 := ih (by simpa using h)
      simp only [hashmap_contains, List.any_eq_true, beq_iff_eq, not_exists] at h2 ⊢
      simp only [List.any_cons, Bool.or_eq_false_iff, beq_eq_false_iff_ne, ne_eq]
      refine ⟨hd, ?_⟩
      simpa [hashmap_contains] using h2

theorem hashmap_remove_contains_mono {l : List ReplyCallback} {s2 s : Nat}
    (h : hashmap_contains (hashmap_remove l s2).2 s = true) :
    hashmap_contains l s = true := by
  induction l with
  | nil => simp [hashmap_remove, hashmap_contains] at h
  | cons d rest ih =>
    by_cases hd : d.serial = s2
    · simp [hashmap_remove, hd] at h
      simp [hashmap_contains, List.any_cons]
      right
      simpa [hashmap_contains] using h
    · simp [hashmap_remove, hd, hashmap_contains, List.any_cons] at h ⊢
      rcases h with h | h
      · exact Or.inl h
      · exact Or.inr (by simpa [hashmap_contains] using ih (by simpa [hashmap_contains] using h))

theorem hashmap_remove_nodup_gone {l : List ReplyCallback} {s : Nat} {c : ReplyCallback}
    (hnd : (l.map ReplyCallback.serial).Nodup)
    (h : (hashmap_remove l s).1 = some c) :
    hashmap_contains (hashmap_remove l s).2 s = false := by
  induction l with
  | nil => simp [hashmap_remove] at h
  | cons d rest ih =>
    simp only [List.map_cons, List.nodup_cons] at hnd
    by_cases hd : d.serial = s
    · simp only [hashmap_remove, hd, if_true, eq_self_iff_true]
      simp only [hashmap_contains, List.any_eq_true, beq_iff_eq, not_exists]
      simp only [Bool.not_eq_true] at *
      by_contra hc
      simp only [Bool.not_eq_false, List.any_eq_true, beq_iff_eq] at hc
      obtain ⟨x, hx, hxs⟩ := hc
      exact hnd.1 (by rw [hd, ← hxs]; exact List.mem_map_of_mem _ hx)
    · simp only [hashmap_remove, hd, if_false] at h ⊢
      have h2 := ih hnd.2 (by simpa using h)
      by_contra hc
      simp only [Bool.not_eq_false, hashmap_contains, List.any_cons, Bool.or_eq_true,
        beq_iff_eq, List.any_eq_true] at hc
      rcases hc with hc | hc
      · exact hd hc
      · obtain ⟨x, hx, hxs⟩ := hc
        simp only [hashmap_contains, List.any_eq_true, beq_iff_eq] at h2
        simp at h2
        exact h2 x hx hxs

theorem prioq_remove_gone (l : List ReplyCallback) (s : Nat) :
    prioq_contains (prioq_remove l s) s = false := by
  by_contra hc
  simp only [Bool.not_eq_false, prioq_contains, List.any_eq_true, beq_iff_eq] at hc
  obtain ⟨x, hx, hxs⟩ := hc
  simp only [prioq_remove, List.mem_filter, bne_iff_ne, ne_eq] at hx
  exact hx.2 hxs

theorem prioq_remove_contains_mono {l : List ReplyCallback} {s2 s : Nat}
    (h : prioq_contains (prioq_remove l s2) s = true) : prioq_contains l s = true := by
  simp only [prioq_contains, List.any_eq_true] at h ⊢
  obtain ⟨x, hx, hs⟩ := h
  exact ⟨x, List.mem_of_mem_filter hx, hs⟩

theorem prioq_popmin_mem {l rest : List ReplyCallback} {c : ReplyCallback}
    (h : prioq_popmin l = some (c, rest)) : c ∈ l ∧ ∀ x ∈ rest, x ∈ l := by
  induction l generalizing c rest with
  | nil => simp [prioq_popmin] at h
  | cons d tl ih =>
    simp only [prioq_popmin] at h
    cases htl : prioq_popmin tl with
    | none =>
      rw [htl] at h
      simp only [Option.some.injEq, Prod.mk.injEq] at h
      obtain ⟨h1, h2⟩ := h
      subst h1; subst h2
      exact ⟨List.mem_cons_self _ _, by simp⟩
    | some p =>
      obtain ⟨e, rest2⟩ := p
      rw [htl] at h
      by_cases hc : timeout_compare d e ≤ 0
      · simp only [hc, if_true, Option.some.injEq, Prod.mk.injEq] at h
        obtain ⟨h1, h2⟩ := h
        subst h1; subst h2
        exact ⟨List.mem_cons_self _ _, fun x hx => List.mem_cons_of_mem _ hx⟩
      · simp only [hc, if_false, Option.some.injEq, Prod.mk.injEq] at h
        obtain ⟨h1, h2⟩ := h
        subst h1
        obtain ⟨he, hr⟩ := ih htl
        constructor
        · exact List.mem_cons_of_mem _ he
        · intro x hx
          rw [← h2] at hx
          rcases List.mem_cons.mp hx with hx | hx
          · exact hx ▸ List.mem_cons_self _ _
          · exact List.mem_cons_of_mem _ (hr x hx)

theorem contains_false_of_remove {l : List ReplyCallback} {s2 s : Nat}
    (h : hashmap_contains l s = false) :
    hashmap_contains (hashmap_remove l s2).2 s = false := by
  cases hc : hashmap_contains (hashmap_remove l s2).2 s with
  | false => rfl
  | true => rw [hashmap_remove_contains_mono hc] at h; cases h

theorem prioq_contains_false_of_remove {l : List ReplyCallback} {s2 s : Nat}
    (h : prioq_contains l s = false) :
    prioq_contains (prioq_remove l s2) s = false := by
  cases hc : prioq_contains (prioq_remove l s2) s with
  | false => rfl
  | true => rw [prioq_remove_contains_mono hc] at h; cases h

theorem prioq_contains_false_of_popmin {l rest : List ReplyCallback} {c : ReplyCallback} {s : Nat}
    (hp : prioq_popmin l = some (c, rest))
    (h : prioq_contains l s = false) :
    prioq_contains rest s = false := by
  cases hc : prioq_contains rest s with
  | false => rfl
  | true =>
    simp only [prioq_contains, List.any_eq_true, beq_iff_eq] at hc
    obtain ⟨x, hx, hs⟩ := hc
    have hmem := (prioq_popmin_mem hp).2 x hx
    have h3 : prioq_contains l s = true := by
      simp only [prioq_contains, List.any_eq_true, beq_iff_eq]
      exact ⟨x, hmem, hs⟩
    rw [h3] at h; cases h

theorem contains_true_of_mem {l : List ReplyCallback} {c : ReplyCallback}
    (hm : c ∈ l) : hashmap_contains l c.serial = true := by
  simp only [hashmap_contains, List.any_eq_true, beq_iff_eq]
  exact ⟨c, hm, rfl⟩

theorem prioq_contains_true_of_mem {l : List ReplyCallback} {c : ReplyCallback}
    (hm : c ∈ l) : prioq_contains l c.serial = true := by
  simp only [prioq_contains, List.any_eq_true, beq_iff_eq]
  exact ⟨c, hm, rfl⟩

theorem process_reply_untracked {env : Env} {bus : SdBus} {m : Message} {s : Nat}
    (h1 : hashmap_contains bus.replyCallbacks s = false)
    (h2 : prioq_contains bus.replyCallbacksPrioq s = false) :
    hashmap_contains (process_reply env bus m).1.replyCallbacks s = false ∧
    prioq_contains (process_reply env bus m).1.replyCallbacksPrioq s = false ∧
    ∀ e ∈ (process_reply env bus m).2.2, eventSerial e ≠ some s := by
  unfold process_reply
  by_cases ht : m.type ≠ MsgType.methodReturn ∧ m.type ≠ MsgType.methodError
  · simp [ht, h1, h2]
  · simp only [ht, if_false]
    cases hr : hashmap_remove bus.replyCallbacks m.replySerial with
    | mk fnd rest =>
      cases fnd with
      | none => simp [h1, h2]
      | some c =>
        have hfound : (hashmap_remove bus.replyCallbacks m.replySerial).1 = some c := by
          rw [hr]
        have hp := hashmap_remove_found hfound
        have hcns : c.serial ≠ s := by
          intro he
          have h3 : hashmap_contains bus.replyCallbacks s = true := by
            rw [← he]; exact contains_true_of_mem hp.2
          rw [h3] at h1; cases h1
        have hrest : hashmap_contains rest s = false := by
          have h4 := @contains_false_of_remove bus.replyCallbacks m.replySerial s h1
          rw [hr] at h4
          exact h4
        have hprioq1 : prioq_contains (prioq_remove bus.replyCallbacksPrioq c.serial) s = false :=
          prioq_contains_false_of_remove h2
        by_cases hct : c.timeout = 0
        · simp [hct, hrest, h2, eventSerial, hcns]
        · simp [hct, hrest, hprioq1, eventSerial, hcns]

theorem process_timeout_untracked {env : Env} {bus : SdBus} {s : Nat}
    (h1 : hashmap_contains bus.replyCallbacks s = false)
    (h2 : prioq_contains bus.replyCallbacksPrioq s = false) :
    hashmap_contains (process_timeout env bus).1.replyCallbacks s = false ∧
    prioq_contains (process_timeout env bus).1.replyCallbacksPrioq s = false ∧
    ∀ e ∈ (process_timeout env bus).2.2, eventSerial e ≠ some s := by
  unfold process_timeout
  cases hp : prioq_popmin bus.replyCallbacksPrioq with
  | none => simp [h1, h2]
  | some p =>
    obtain ⟨c, rest⟩ := p
    have hcm := (prioq_popmin_mem hp).1
    have hcns : c.serial ≠ s := by
      intro he
      have h3 : prioq_contains bus.replyCallbacksPrioq s = true := by
        rw [← he]; exact prioq_contains_true_of_mem hcm
      rw [h3] at h2; cases h2
    by_cases hn : c.timeout > env.now
    · simp [hn, h1, h2]
    · have hrest : hashmap_contains (hashmap_remove bus.replyCallbacks c.serial).2 s = false :=
        contains_false_of_remove h1
      have hpq : prioq_contains rest s = false := prioq_contains_false_of_popmin hp h2
      simp [hn, hrest, hpq, eventSerial, hcns]

theorem cancel_untracked {bus : SdBus} {pid s2 s : Nat}
    (h1 : hashmap_contains bus.replyCallbacks s = false)
    (h2 : prioq_contains bus.replyCallbacksPrioq s = false) :
    hashmap_contains (sd_bus_send_with_reply_cancel bus pid s2).1.replyCallbacks s = false ∧
    prioq_contains (sd_bus_send_with_reply_cancel bus pid s2).1.replyCallbacksPrioq s = false := by
  unfold sd_bus_send_with_reply_cancel
  by_cases hz : s2 = 0
  · simp [hz, h1, h2]
  · simp only [hz, if_false]
    by_cases hpid : bus_pid_changed bus pid
    · simp [hpid, h1, h2]
    · simp only [hpid, Bool.false_eq_true, if_false]
      cases hr : hashmap_remove bus.replyCallbacks s2 with
      | mk fnd rest =>
        cases fnd with
        | none => simp [h1, h2]
        | some c =>
          have hrest : hashmap_contains rest s = false := by
            have h4 := @contains_false_of_remove bus.replyCallbacks s2 s h1
            rw [hr] at h4
            exact h4
          have hprioq1 : prioq_contains (prioq_remove bus.replyCallbacksPrioq c.serial) s = false :=
            prioq_contains_false_of_remove h2
          by_cases hct : c.timeout = 0
          · simp [hct, hrest, h2]
          · simp [hct, hrest, hprioq1]

theorem runBusOps_untracked {env : Env} {pid : Nat} {s : Nat} (ops : List BusOp) (bus : SdBus)
    (h1 : hashmap_contains bus.replyCallbacks s = false)
    (h2 : prioq_contains bus.replyCallbacksPrioq s = false) :
    ∀ e ∈ (runBusOps env pid ops bus).2, eventSerial e ≠ some s := by
  induction ops generalizing bus with
  | nil => simp [runBusOps]
  | cons op ops ih =>
    simp only [runBusOps, List.mem_append]
    intro e he
    rcases he with he | he
    · cases op with
      | deliver m =>
        have hu := @process_reply_untracked env bus m s h1 h2
        exact hu.2.2 e (by simpa [runBusOp] using he)
      | expire =>
        have hu := @process_timeout_untracked env bus s h1 h2
        exact hu.2.2 e (by simpa [runBusOp] using he)
      | cancelSerial s2 =>
        simp [runBusOp] at he
    · cases op with
      | deliver m =>
        have hu := @process_reply_untracked env bus m s h1 h2
        exact ih _ hu.1 hu.2.1 e (by simpa [runBusOp] using he)
      | expire =>
        have hu := @process_timeout_untracked env bus s h1 h2
        exact ih _ hu.1 hu.2.1 e (by simpa [runBusOp] using he)
      | cancelSerial s2 =>
        have hu := @cancel_untracked bus pid s2 s h1 h2
        exact ih _ hu.1 hu.2 e (by simpa [runBusOp] using he)

theorem hashmap_remove_none_of_not_contains {l : List ReplyCallback} {s : Nat}
    (h : hashmap_contains l s = false) : (hashmap_remove l s).1 = none := by
  cases hr : (hashmap_remove l s).1 with
  | none => rfl
  | some c =>
    have hp := hashmap_remove_found hr
    have h3 : hashmap_contains l s = true := by
      rw [← hp.1]; exact contains_true_of_mem hp.2
    rw [h3] at h; cases h

theorem cancel_not_found {bus : SdBus} {pid s : Nat} (hs : s ≠ 0)
    (hpc : bus.originalPid = pid)
    (h : hashmap_contains bus.replyCallbacks s = false) :
    sd_bus_send_with_reply_cancel bus pid s = (bus, 0) := by
  have hb : bus_pid_changed bus pid = false := by simp [bus_pid_changed, hpc]
  have hrn := hashmap_remove_none_of_not_contains h
  unfold sd_bus_send_with_reply_cancel
  simp only [hs, if_false, hb, Bool.false_eq_true]
  cases hr : hashmap_remove bus.replyCallbacks s with
  | mk fnd rest =>
    rw [hr] at hrn
    simp only at hrn
    subst hrn
    simp

/-- Claim C3: after cancel(s) returns, the callback registered for s
never fires again, neither by reply delivery nor by timeout expiry over
any sequence of deliver/expire/cancel steps, and a second cancel(s)
returns 0 without any effect.  The hypotheses are the reachable-state
invariants of the reply-correlation table: serial keys are unique,
every prioq entry is the hashmap record of its serial, and only
records with a deadline sit in the prioq. -/
theorem C3_cancel_idempotent_no_fire (env : Env) (bus : SdBus) (pid s : Nat)
    (hpid : bus.originalPid = pid) (hs : s ≠ 0)
    (hnd : (bus.replyCallbacks.map ReplyCallback.serial).Nodup)
    (hagree : ∀ c ∈ bus.replyCallbacksPrioq,
      (hashmap_remove bus.replyCallbacks c.serial).1 = some c)
    (hzero : ∀ c ∈ bus.replyCallbacksPrioq, c.timeout ≠ 0) :
    hashmap_contains (sd_bus_send_with_reply_cancel bus pid s).1.replyCallbacks s = false ∧
    prioq_contains (sd_bus_send_with_reply_cancel bus pid s).1.replyCallbacksPrioq s = false ∧
    sd_bus_send_with_reply_cancel (sd_bus_send_with_reply_cancel bus pid s).1 pid s
      = ((sd_bus_send_with_reply_cancel bus pid s).1, 0) ∧
    ∀ ops e, e ∈ (runBusOps env pid ops (sd_bus_send_with_reply_cancel bus pid s).1).2 →
      eventSerial e ≠ some s := by
  have hpc : bus_pid_changed bus pid = false := by
    simp [bus_pid_changed, hpid]
  have main : hashmap_contains (sd_bus_send_with_reply_cancel bus pid s).1.replyCallbacks s = false ∧
      prioq_contains (sd_bus_send_with_reply_cancel bus pid s).1.replyCallbacksPrioq s = false ∧
      (sd_bus_send_with_reply_cancel bus pid s).1.originalPid = pid := by
    unfold sd_bus_send_with_reply_cancel
    simp only [hs, if_false, hpc, Bool.false_eq_true]
    cases hr : hashmap_remove bus.replyCallbacks s with
    | mk fnd rest =>
      cases fnd with
      | none =>
        have h1 : hashmap_contains bus.replyCallbacks s = false :=
          hashmap_remove_none (by rw [hr])
        have h2 : prioq_contains bus.replyCallbacksPrioq s = false := by
          by_contra hc
          simp only [Bool.not_eq_false, prioq_contains, List.any_eq_true, beq_iff_eq] at hc
          obtain ⟨d, hd, hds⟩ := hc
          have h5 := hagree d hd
          rw [hds, hr] at h5
          cases h5
        simp [h1, h2, hpid]
      | some c =>
        have hfound : (hashmap_remove bus.replyCallbacks s).1 = some c := by rw [hr]
        have hcp := hashmap_remove_found hfound
        have h1 : hashmap_contains rest s = false := by
          have h4 := hashmap_remove_nodup_gone hnd hfound
          rw [hr] at h4
          exact h4
        by_cases hct : c.timeout = 0
        · have h2 : prioq_contains bus.replyCallbacksPrioq s = false := by
            by_contra hc
            simp only [Bool.not_eq_false, prioq_contains, List.any_eq_true, beq_iff_eq] at hc
            obtain ⟨d, hd, hds⟩ := hc
            have hda := hagree d hd
            rw [hds, hr] at hda
            have hcd : c = d := by injection hda
            exact hzero d hd (hcd ▸ hct)
          simp [hct, h1, h2, hpid]
        · have h2 : prioq_contains (prioq_remove bus.replyCallbacksPrioq c.serial) s = false := by
            rw [hcp.1]
            exact prioq_remove_gone _ _
          simp [hct, h1, h2, hpid]
  refine ⟨main.1, main.2.1, cancel_not_found hs main.2.2 main.1, ?_⟩
  intro ops e he
  exact runBusOps_untracked ops _ main.1 main.2.1 e he

/-- Witness for C3 at a concrete bus holding one pending reply. -/
theorem C3_cancel_idempotent_no_fire_witness :
    hashmap_contains (sd_bus_send_with_reply_cancel busW3 100 5).1.replyCallbacks 5 = false ∧
    prioq_contains (sd_bus_send_with_reply_cancel busW3 100 5).1.replyCallbacksPrioq 5 = false ∧
    sd_bus_send_with_reply_cancel (sd_bus_send_with_reply_cancel busW3 100 5).1 100 5
      = ((sd_bus_send_with_reply_cancel busW3 100 5).1, 0) ∧
    ∀ ops e, e ∈ (runBusOps mkEnv 100 ops (sd_bus_send_with_reply_cancel busW3 100 5).1).2 →
      eventSerial e ≠ some 5 :=
  C3_cancel_idempotent_no_fire mkEnv busW3 100 5 (by decide) (by decide) (by decide)
    (by decide) (by decide)

theorem process_timeout_prioq_only {env : Env} {s : Nat} (bus : SdBus)
    (h2 : prioq_contains bus.replyCallbacksPrioq s = false) :
    prioq_contains (process_timeout env bus).1.replyCallbacksPrioq s = false ∧
    ∀ e ∈ (process_timeout env bus).2.2, eventSerial e ≠ some s := by
  unfold process_timeout
  cases hp : prioq_popmin bus.replyCallbacksPrioq with
  | none => simp [h2]
  | some p =>
    obtain ⟨c, rest⟩ := p
    have hcm := (prioq_popmin_mem hp).1
    have hcns : c.serial ≠ s := by
      intro he
      have h3 : prioq_contains bus.replyCallbacksPrioq s = true := by
        rw [← he]; exact prioq_contains_true_of_mem hcm
      rw [h3] at h2; cases h2
    by_cases hn : c.timeout > env.now
    · simp [hn, h2]
    · have hpq : prioq_contains rest s = false := prioq_contains_false_of_popmin hp h2
      simp [hn, hpq, eventSerial, hcns]

theorem process_timeout_steps_no_fire {env : Env} {s : Nat} (n : Nat) (bus : SdBus)
    (h2 : prioq_contains bus.replyCallbacksPrioq s = false) :
    ∀ e ∈ (process_timeout_steps env n bus).2, eventSerial e ≠ some s := by
  induction n generalizing bus with
  | zero => simp [process_timeout_steps]
  | succ n ih =>
    simp only [process_timeout_steps, List.mem_append]
    intro e he
    have hu := @process_timeout_prioq_only env s bus h2
    rcases he with he | he
    · exact hu.2 e he
    · exact ih _ hu.1 e he

/-- Claim C9: the timeout prioq comparator orders entries by deadline
ascending with every 0-deadline entry after every positive-deadline
entry; and a PendingReply registered with no timeout (usec =
UINT64_MAX, giving deadline 0) is never inserted into the prioq, so
timeout expiry can never fire its callback over any number of
process_timeout steps. -/
theorem C9_comparator_and_no_deadline (env : Env) (bus : SdBus) (m : Message)
    (cbId pid : Nat)
    (hst : bus.state = BusState.running)
    (hpid : bus.originalPid = pid)
    (hty : m.type = MsgType.methodCall)
    (hnr : m.noReplyExpected = false)
    (hsl : m.sealed = true)
    (hfds : m.nFds = 0)
    (hnew : hashmap_contains bus.replyCallbacks m.serial = false)
    (hnp : prioq_contains bus.replyCallbacksPrioq m.serial = false)
    (hv : m.version ≤ bus.messageVersion)
    (hq1 : bus.wqueue ≠ [])
    (hq2 : bus.wqueue.length < BUS_WQUEUE_MAX) :
    (∀ x y : ReplyCallback,
      (x.timeout ≠ 0 → y.timeout = 0 → timeout_compare x y = -1) ∧
      (x.timeout = 0 → y.timeout ≠ 0 → timeout_compare x y = 1) ∧
      (x.timeout ≠ 0 → y.timeout ≠ 0 → x.timeout < y.timeout → timeout_compare x y = -1) ∧
      (x.timeout ≠ 0 → y.timeout ≠ 0 → y.timeout < x.timeout → timeout_compare x y = 1) ∧
      (x.timeout = y.timeout → timeout_compare x y = 0)) ∧
    (sd_bus_send_with_reply env bus m cbId UINT64_MAX pid true).2.2 = 1 ∧
    (sd_bus_send_with_reply env bus m cbId UINT64_MAX pid true).1.replyCallbacksPrioq
      = bus.replyCallbacksPrioq ∧
    hashmap_contains (sd_bus_send_with_reply env bus m cbId UINT64_MAX pid true).1.replyCallbacks
      m.serial = true ∧
    ∀ n e, e ∈ (process_timeout_steps env n
        (sd_bus_send_with_reply env bus m cbId UINT64_MAX pid true).1).2 →
      eventSerial e ≠ some m.serial := by
  have hpc : bus_pid_changed bus pid = false := by simp [bus_pid_changed, hpid]
  have hopen : BUS_IS_OPEN bus.state = true := by simp [BUS_IS_OPEN, hst]
  have hlen : ¬ bus.wqueue.length = 0 := by
    intro h; exact hq1 (List.length_eq_zero.mp h)
  have hseal : bus_seal_message bus m = Except.ok (bus, m) := by
    have : ¬ (m.version > bus.messageVersion) := by omega
    simp [bus_seal_message, this, hsl]
  have hres : sd_bus_send_with_reply env bus m cbId UINT64_MAX pid true
      = ({ bus with
            replyCallbacks := bus.replyCallbacks
              ++ [{ cbId := cbId, serial := m.serial, timeout := 0 }]
            wqueue := bus.wqueue ++ [m] }, m, 1) := by
    unfold sd_bus_send_with_reply
    simp only [hopen, hty, hnr, hpc, Bool.true_eq_false, not_true, if_false, hseal,
      Bool.false_eq_true, if_true, ne_eq, not_false_iff]
    have hce : calc_elapse env UINT64_MAX = 0 := by simp [calc_elapse]
    simp only [hce, hnew, Bool.false_eq_true, if_false]
    unfold sd_bus_send
    simp only [BUS_IS_OPEN, hst, hpc, bus_pid_changed, hpid, hfds, hseal, hsl]
    simp [hlen, hq2, hst, hsl, hfds, bus_seal_message,
      show ¬ (m.version > bus.messageVersion) by omega, bus_pid_changed, hpid,
      show ¬ (BUS_WQUEUE_MAX ≤ bus.wqueue.length) by omega]
  refine ⟨?_, ?_, ?_, ?_, ?_⟩
  · intro x y
    refine ⟨?_, ?_, ?_, ?_, ?_⟩ <;> intros <;>
      (unfold timeout_compare; split_ifs <;> omega)
  · rw [hres]
  · rw [hres]
  · rw [hres]
    simp [hashmap_contains]
  · intro n e he
    rw [hres] at he
    exact process_timeout_steps_no_fire n _ (by simpa using hnp) e he

/-- Witness for C9 at a concrete bus and message. -/
theorem C9_comparator_and_no_deadline_witness :
    (∀ x y : ReplyCallback,
      (x.timeout ≠ 0 → y.timeout = 0 → timeout_compare x y = -1) ∧
      (x.timeout = 0 → y.timeout ≠ 0 → timeout_compare x y = 1) ∧
      (x.timeout ≠ 0 → y.timeout ≠ 0 → x.timeout < y.timeout → timeout_compare x y = -1) ∧
      (x.timeout ≠ 0 → y.timeout ≠ 0 → y.timeout < x.timeout → timeout_compare x y = 1) ∧
      (x.timeout = y.timeout → timeout_compare x y = 0)) ∧
    (sd_bus_send_with_reply mkEnv busW9 msgW9 3 UINT64_MAX 100 true).2.2 = 1 ∧
    (sd_bus_send_with_reply mkEnv busW9 msgW9 3 UINT64_MAX 100 true).1.replyCallbacksPrioq
      = busW9.replyCallbacksPrioq ∧
    hashmap_contains
      (sd_bus_send_with_reply mkEnv busW9 msgW9 3 UINT64_MAX 100 true).1.replyCallbacks
      msgW9.serial = true ∧
    ∀ n e, e ∈ (process_timeout_steps mkEnv n
        (sd_bus_send_with_reply mkEnv busW9 msgW9 3 UINT64_MAX 100 true).1).2 →
      eventSerial e ≠ some msgW9.serial :=
  C9_comparator_and_no_deadline mkEnv busW9 msgW9 3 100 (by decide) (by decide) (by decide)
    (by decide) (by decide) (by decide) (by decide) (by decide) (by decide) (by decide)
    (by decide)

theorem add_filter_ok {bus : SdBus} {pid cb : Nat} (h : bus.originalPid = pid) :
    sd_bus_add_filter bus pid cb
      = ({ bus with filterCallbacks := { cbId := cb, lastIteration := 0 } :: bus.filterCallbacks },
         0) := by
  simp [sd_bus_add_filter, bus_pid_changed, h]

theorem registerFilters_spec (cbs : List Nat) (bus : SdBus) (pid : Nat)
    (h : bus.originalPid = pid) :
    registerFilters bus pid cbs
      = { bus with filterCallbacks :=
            (cbs.map fun cb => ({ cbId := cb, lastIteration := 0 } : FilterCallback)).reverse
              ++ bus.filterCallbacks } := by
  induction cbs generalizing bus with
  | nil => simp [registerFilters]
  | cons cb cbs ih =>
    have step : registerFilters bus pid (cb :: cbs)
        = registerFilters
            { bus with filterCallbacks :=
                { cbId := cb, lastIteration := 0 } :: bus.filterCallbacks } pid cbs := by
      simp [registerFilters, add_filter_ok h]
    rw [step, ih _ (by simp [h])]
    simp

theorem process_filter_go_all {env : Env} {iter : Nat} (l : List FilterCallback)
    (hz : ∀ cb, env.filterRet cb = 0)
    (hf : ∀ f ∈ l, f.lastIteration ≠ iter) :
    (process_filter_go env iter l).2.2 = l.map (fun f => Event.filterCb f.cbId) ∧
    (process_filter_go env iter l).2.1 = 0 := by
  induction l with
  | nil => simp [process_filter_go]
  | cons f fs ih =>
    have hfi : f.lastIteration ≠ iter := hf f (List.mem_cons_self _ _)
    have ihr := ih fun g hg => hf g (List.mem_cons_of_mem _ hg)
    simp [process_filter_go, hfi, hz f.cbId, ihr.1, ihr.2]

/-- Claim C10: sd_bus_add_filter prepends to the head of the filter
list, so the filters run in reverse order of registration, most
recently added first, for every message processed while no filter is
yet stamped with the current iteration. -/
theorem C10_filters_reverse_registration (env : Env) (bus : SdBus) (pid : Nat) (cbs : List Nat)
    (hpid : bus.originalPid = pid)
    (hz : ∀ cb, env.filterRet cb = 0)
    (hi : bus.iterationCounter ≠ 0)
    (hfresh : ∀ f ∈ bus.filterCallbacks, f.lastIteration ≠ bus.iterationCounter) :
    (∀ cb, sd_bus_add_filter bus pid cb
      = ({ bus with filterCallbacks := { cbId := cb, lastIteration := 0 } :: bus.filterCallbacks },
         0)) ∧
    (process_filter env (registerFilters bus pid cbs)).2.2
      = (cbs.reverse.map fun cb => Event.filterCb cb)
        ++ bus.filterCallbacks.map fun f => Event.filterCb f.cbId := by
  refine ⟨fun cb => add_filter_ok hpid, ?_⟩
  rw [registerFilters_spec cbs bus pid hpid]
  have hfresh2 : ∀ f ∈ (cbs.map fun cb =>
        ({ cbId := cb, lastIteration := 0 } : FilterCallback)).reverse
          ++ bus.filterCallbacks,
      f.lastIteration ≠ bus.iterationCounter := by
    intro f hfm
    rcases List.mem_append.mp hfm with hfm | hfm
    · rw [List.mem_reverse] at hfm
      obtain ⟨cb, _, hcb⟩ := List.mem_map.mp hfm
      rw [← hcb]
      simpa using fun h => hi h.symm
    · exact hfresh f hfm
  have hgo := @process_filter_go_all env bus.iterationCounter _ hz hfresh2
  simp only [process_filter]
  rw [hgo.1]
  simp [List.map_reverse, Function.comp]

/-- Witness for C10: two filters registered in order 1 then 2 run as
2 then 1. -/
theorem C10_filters_reverse_registration_witness :
    (∀ cb, sd_bus_add_filter busW10 100 cb
      = ({ busW10 with
            filterCallbacks := { cbId := cb, lastIteration := 0 } :: busW10.filterCallbacks },
         0)) ∧
    (process_filter mkEnv (registerFilters busW10 100 [1, 2])).2.2
      = (([1, 2].reverse.map fun cb => Event.filterCb cb)
        ++ busW10.filterCallbacks.map fun f => Event.filterCb f.cbId) :=
  C10_filters_reverse_registration mkEnv busW10 100 [1, 2] (by decide) (fun _ => rfl)
    (by decide) (by decide)

/-- Claim C1 amended: in the Hello state, a first inbound message that
is not a method return or method error whose reply serial equals the
Hello serial makes process_message report -EIO, but the connection
stays in the Hello state rather than transitioning to Closed (the
correction from the claim as stated); the Hello reply itself continues
through the normal handler chain. -/
theorem C1_hello_gate (env : Env) (bus : SdBus) (pid : Nat) (m : Message)
    (hst : bus.state = BusState.hello) :
    (((m.type ≠ MsgType.methodReturn ∧ m.type ≠ MsgType.methodError) ∨
        m.replySerial ≠ bus.helloSerial) →
      process_message env bus pid m
        = ({ bus with iterationCounter := bus.iterationCounter + 1 }, -eio, []) ∧
      (process_message env bus pid m).1.state = BusState.hello) ∧
    ((m.type = MsgType.methodReturn ∨ m.type = MsgType.methodError) →
      m.replySerial = bus.helloSerial →
      process_message env bus pid m
        = process_message_rest env { bus with iterationCounter := bus.iterationCounter + 1 }
            pid m) := by
  constructor
  · intro hbad
    have hr : process_hello { bus with iterationCounter := bus.iterationCounter + 1 } m
        = -eio := by
      unfold process_hello
      by_cases ht : m.type ≠ MsgType.methodReturn ∧ m.type ≠ MsgType.methodError
      · simp [hst, ht]
      · rcases hbad with hbad | hbad
        · exact absurd hbad ht
        · simp [hst, ht, hbad]
    have hmain : process_message env bus pid m
        = ({ bus with iterationCounter := bus.iterationCounter + 1 }, -eio, []) := by
      unfold process_message
      simp [hr, eio]
    refine ⟨hmain, ?_⟩
    rw [hmain]
    simp [hst]
  · intro ht hrs
    have hr : process_hello { bus with iterationCounter := bus.iterationCounter + 1 } m
        = 0 := by
      unfold process_hello
      rcases ht with ht | ht <;> simp [hst, ht, hrs]
    unfold process_message
    simp [hr]

/-- Witness for C1 at a concrete bus in the Hello state and a signal
as first inbound message. -/
theorem C1_hello_gate_witness :
    (((msgW1.type ≠ MsgType.methodReturn ∧ msgW1.type ≠ MsgType.methodError) ∨
        msgW1.replySerial ≠ busW1.helloSerial) →
      process_message mkEnv busW1 100 msgW1
        = ({ busW1 with iterationCounter := busW1.iterationCounter + 1 }, -eio, []) ∧
      (process_message mkEnv busW1 100 msgW1).1.state = BusState.hello) ∧
    ((msgW1.type = MsgType.methodReturn ∨ msgW1.type = MsgType.methodError) →
      msgW1.replySerial = busW1.helloSerial →
      process_message mkEnv busW1 100 msgW1
        = process_message_rest mkEnv { busW1 with iterationCounter := busW1.iterationCounter + 1 }
            100 msgW1) :=
  C1_hello_gate mkEnv busW1 100 msgW1 (by decide)

/-- Counterexample for C1 as stated: in the Hello state a first
inbound message that is not the Hello reply makes process() report
-EIO, but the connection does NOT transition to the Closed state; it
stays in Hello. -/
theorem C1_hello_gate_counterexample :
    (sd_bus_process mkEnv busX1 100 false).2.1 = -eio ∧
    (sd_bus_process mkEnv busX1 100 false).1.state = BusState.hello ∧
    (sd_bus_process mkEnv busX1 100 false).1.state ≠ BusState.closed := by decide

/-- Claim C2 amended: delivery of a reply that matches a registered
PendingReply removes the record from both the hashmap and the timeout
prioq, and the message bypasses filters, matches and object dispatch
when the reply callback returns nonzero; when the callback returns 0
(the correction from the claim as stated, which said "regardless of
the value the reply callback returns") the message continues down the
chain through filters, the match walk and object dispatch. -/
theorem C2_reply_delivery (env : Env) (bus : SdBus) (pid : Nat) (m : Message)
    (c : ReplyCallback)
    (hst : bus.state = BusState.running)
    (hty : m.type = MsgType.methodReturn ∨ m.type = MsgType.methodError)
    (hfound : (hashmap_remove bus.replyCallbacks m.replySerial).1 = some c)
    (hnd : (bus.replyCallbacks.map ReplyCallback.serial).Nodup)
    (hp0 : c.timeout = 0 → prioq_contains bus.replyCallbacksPrioq m.replySerial = false)
    (hfresh : ∀ f ∈ bus.filterCallbacks, f.lastIteration ≠ bus.iterationCounter + 1)
    (hz : ∀ cb, env.filterRet cb = 0)
    (hmz : env.matchRet = 0) :
    hashmap_contains (process_reply env bus m).1.replyCallbacks m.replySerial = false ∧
    prioq_contains (process_reply env bus m).1.replyCallbacksPrioq m.replySerial = false ∧
    (process_reply env bus m).2.2 = [Event.replyCb c.cbId c.serial] ∧
    (process_reply env bus m).2.1 = env.replyRet c.cbId ∧
    (env.replyRet c.cbId ≠ 0 →
      (process_message env bus pid m).2.2 = [Event.replyCb c.cbId c.serial]) ∧
    (env.replyRet c.cbId = 0 →
      (process_message env bus pid m).2.2
        = Event.replyCb c.cbId c.serial
            :: ((bus.filterCallbacks.map fun f => Event.filterCb f.cbId)
                ++ [Event.matchRun, Event.objectRun])) := by
  have hcp := hashmap_remove_found hfound
  have hty2 : ¬ (m.type ≠ MsgType.methodReturn ∧ m.type ≠ MsgType.methodError) := by
    rcases hty with hty | hty <;> simp [hty]
  have hpr : ∀ b2 : SdBus, b2.replyCallbacks = bus.replyCallbacks →
      b2.replyCallbacksPrioq = bus.replyCallbacksPrioq →
      process_reply env b2 m
        = ({ b2 with
              replyCallbacks := (hashmap_remove bus.replyCallbacks m.replySerial).2
              replyCallbacksPrioq :=
                if c.timeout ≠ 0 then prioq_remove bus.replyCallbacksPrioq c.serial
                else bus.replyCallbacksPrioq },
           env.replyRet c.cbId, [Event.replyCb c.cbId c.serial]) := by
    intro b2 hb1 hb2
    unfold process_reply
    rw [hb1, hb2]
    cases hr : hashmap_remove bus.replyCallbacks m.replySerial with
    | mk fnd rest =>
      rw [hr] at hfound
      simp only at hfound
      subst hfound
      by_cases hct : c.timeout = 0 <;> simp [hty2, hct]
  have hprm := hpr bus rfl rfl
  have hgone : hashmap_contains (hashmap_remove bus.replyCallbacks m.replySerial).2
      m.replySerial = false := hashmap_remove_nodup_gone hnd hfound
  refine ⟨?_, ?_, ?_, ?_, ?_, ?_⟩
  · rw [hprm]
    exact hgone
  · rw [hprm]
    by_cases hct : c.timeout = 0
    · simp [hct, hp0 hct]
    · simp only [hct, ne_eq, not_false_iff, if_true]
      rw [hcp.1]
      exact prioq_remove_gone _ _
  · rw [hprm]
  · rw [hprm]
  · intro hnz
    have hpm : process_hello { bus with iterationCounter := bus.iterationCounter + 1 } m
        = 0 := by
      unfold process_hello
      simp [hst]
    unfold process_message
    simp only [hpm, ne_eq, not_true, if_false]
    have hprb := hpr { bus with iterationCounter := bus.iterationCounter + 1 } rfl rfl
    unfold process_message_rest
    rw [hprb]
    simp [hnz]
  · intro hzz
    have hpm : process_hello { bus with iterationCounter := bus.iterationCounter + 1 } m
        = 0 := by
      unfold process_hello
      simp [hst]
    unfold process_message
    simp only [hpm, ne_eq, not_true, if_false]
    have hprb := hpr { bus with iterationCounter := bus.iterationCounter + 1 } rfl rfl
    unfold process_message_rest
    rw [hprb]
    have hfg := @process_filter_go_all env (bus.iterationCounter + 1) bus.filterCallbacks hz hfresh
    have hbty : m.type ≠ MsgType.methodCall := by
      rcases hty with hty | hty <;> simp [hty]
    simp [hzz, process_filter, hfg.1, hfg.2, process_match, hmz, process_builtin, hbty,
      bus_process_object]

/-- Witness for C2 at a concrete bus with one pending reply and one
filter. -/
theorem C2_reply_delivery_witness :
    hashmap_contains (process_reply mkEnv busW2 msgW2).1.replyCallbacks msgW2.replySerial
      = false ∧
    prioq_contains (process_reply mkEnv busW2 msgW2).1.replyCallbacksPrioq msgW2.replySerial
      = false ∧
    (process_reply mkEnv busW2 msgW2).2.2 = [Event.replyCb 7 5] ∧
    (process_reply mkEnv busW2 msgW2).2.1 = mkEnv.replyRet 7 ∧
    (mkEnv.replyRet 7 ≠ 0 →
      (process_message mkEnv busW2 100 msgW2).2.2 = [Event.replyCb 7 5]) ∧
    (mkEnv.replyRet 7 = 0 →
      (process_message mkEnv busW2 100 msgW2).2.2
        = Event.replyCb 7 5
            :: ((busW2.filterCallbacks.map fun f => Event.filterCb f.cbId)
                ++ [Event.matchRun, Event.objectRun])) :=
  C2_reply_delivery mkEnv busW2 100 msgW2 { cbId := 7, serial := 5, timeout := 100 }
    (by decide) (by decide) (by decide) (by decide) (by decide) (by decide)
    (fun _ => rfl) rfl

/-- Counterexample for C2 as stated: an inbound method return whose
reply serial matches a registered pending reply whose callback returns
0 IS passed to the filter callbacks (and to the match walk and object
dispatch), contradicting the words "regardless of the value the reply
callback returns". -/
theorem C2_reply_delivery_counterexample :
    Event.filterCb 8 ∈ (process_message mkEnv busX2 100 (mkMsg MsgType.methodReturn 2 5)).2.2 ∧
    Event.matchRun ∈ (process_message mkEnv busX2 100 (mkMsg MsgType.methodReturn 2 5)).2.2 ∧
    Event.objectRun ∈ (process_message mkEnv busX2 100 (mkMsg MsgType.methodReturn 2 5)).2.2 ∧
    mkEnv.replyRet 7 = 0 := by decide

/-- Claim C5 amended: when the send queue already holds
BUS_WQUEUE_MAX entries, sd_bus_send fails with -ENOBUFS and the
message is not enqueued (the queue is unchanged); however, contrary to
the claim as stated, the rest of the connection state is not
untouched: an unsealed message is sealed first, so the outgoing serial
counter advances and the message acquires a serial (and, when no
serial out-pointer is passed, the no-reply-expected flag). -/
theorem C5_send_full_queue (env : Env) (bus : SdBus) (m : Message) (pid : Nat)
    (wantSerial : Bool)
    (hopen : BUS_IS_OPEN bus.state = true)
    (hpid : bus.originalPid = pid)
    (hfds : m.nFds = 0)
    (hv : m.version ≤ bus.messageVersion)
    (hds : m.dontSend = false)
    (hfull : BUS_WQUEUE_MAX ≤ bus.wqueue.length) :
    (sd_bus_send env bus m pid wantSerial).2.2 = -enobufs ∧
    (sd_bus_send env bus m pid wantSerial).1.wqueue = bus.wqueue ∧
    (m.sealed = true → (sd_bus_send env bus m pid wantSerial).1 = bus) ∧
    (m.sealed = false →
      (sd_bus_send env bus m pid wantSerial).1
        = { bus with serial := (bus.serial + 1) % 2 ^ 64 } ∧
      (sd_bus_send env bus m pid wantSerial).2.1.serial = (bus.serial + 1) % 2 ^ 64 ∧
      (sd_bus_send env bus m pid wantSerial).2.1.sealed = true ∧
      (wantSerial = false →
        (sd_bus_send env bus m pid wantSerial).2.1.noReplyExpected = true)) := by
  have hpc : bus_pid_changed bus pid = false := by simp [bus_pid_changed, hpid]
  have hnv : ¬ (m.version > bus.messageVersion) := by omega
  have hlen : ¬ bus.wqueue.length = 0 := by
    have : 0 < BUS_WQUEUE_MAX := by norm_num [BUS_WQUEUE_MAX]
    omega
  have hne : ¬ bus.wqueue = [] := by
    intro h
    exact hlen (by simp [h])
  by_cases hsl : m.sealed
  · have hres : sd_bus_send env bus m pid wantSerial = (bus, m, -enobufs) := by
      unfold sd_bus_send
      have hseal : bus_seal_message bus m = Except.ok (bus, m) := by
        simp [bus_seal_message, hnv, hsl]
      simp [hopen, hpc, hfds, hsl, hseal, hds, hne, hlen, hfull]
    simp [hres, hsl]
  · have hres : sd_bus_send env bus m pid wantSerial
        = ({ bus with serial := (bus.serial + 1) % 2 ^ 64 },
           bus_message_seal
             (if wantSerial = true then m else { m with noReplyExpected := true })
             ((bus.serial + 1) % 2 ^ 64),
           -enobufs) := by
      unfold sd_bus_send
      by_cases hw : wantSerial = true <;>
        simp [hopen, hpc, hfds, hsl, hw, hds, hne, hlen, hfull, bus_seal_message, hnv,
          bus_message_seal]
    refine ⟨by simp [hres], by simp [hres], fun h => absurd h hsl, fun _ => ?_⟩
    refine ⟨by simp [hres], ?_, ?_, ?_⟩
    · rw [hres]
      by_cases hw : wantSerial = true <;> simp [hw, bus_message_seal]
    · rw [hres]
      by_cases hw : wantSerial = true <;> simp [hw, bus_message_seal]
    · intro hw
      rw [hres]
      simp [hw, bus_message_seal]

set_option maxRecDepth 100000 in
/-- Witness for C5 at a concrete bus whose send queue is at the cap. -/
theorem C5_send_full_queue_witness :
    (sd_bus_send mkEnv busW5 msgW5 100 true).2.2 = -enobufs ∧
    (sd_bus_send mkEnv busW5 msgW5 100 true).1.wqueue = busW5.wqueue ∧
    (msgW5.sealed = true → (sd_bus_send mkEnv busW5 msgW5 100 true).1 = busW5) ∧
    (msgW5.sealed = false →
      (sd_bus_send mkEnv busW5 msgW5 100 true).1
        = { busW5 with serial := (busW5.serial + 1) % 2 ^ 64 } ∧
      (sd_bus_send mkEnv busW5 msgW5 100 true).2.1.serial = (busW5.serial + 1) % 2 ^ 64 ∧
      (sd_bus_send mkEnv busW5 msgW5 100 true).2.1.sealed = true ∧
      (true = false →
        (sd_bus_send mkEnv busW5 msgW5 100 true).2.1.noReplyExpected = true)) :=
  C5_send_full_queue mkEnv busW5 msgW5 100 true (by decide) (by decide) (by decide)
    (by decide) (by decide) (by decide)

set_option maxRecDepth 100000 in
/-- Counterexample for C5 as stated: with the queue at the cap, send
returns -ENOBUFS and does not enqueue, but the connection state is NOT
unchanged: the message is sealed first, so the outgoing serial counter
advances.  Proved at the concrete full-queue bus. -/
theorem C5_send_full_queue_counterexample :
    (sd_bus_send mkEnv busW5 msgW5 100 true).2.2 = -enobufs ∧
    (sd_bus_send mkEnv busW5 msgW5 100 true).1.serial ≠ busW5.serial := by decide

/-- Claim C7 amended: the guarded public entry points
(sd_bus_process, sd_bus_add_filter, cancel, sd_bus_send,
sd_bus_send_with_reply) fail with -ECHILD and change no state when the
current pid differs from the creator pid; however, contrary to the
claim as stated, not every public entry point does so:
sd_bus_attach_event has no pid guard (see the counterexample) and
sd_bus_close silently returns without reporting any error. -/
theorem C7_pid_guard (env : Env) (bus : SdBus) (pid : Nat) (m : Message)
    (cb s : Nat) (usec : Nat) (wantRet wantSerial : Bool)
    (hpid : bus.originalPid ≠ pid) :
    sd_bus_process env bus pid wantRet = (bus, -echild, none, []) ∧
    sd_bus_add_filter bus pid cb = (bus, -echild) ∧
    (s ≠ 0 → sd_bus_send_with_reply_cancel bus pid s = (bus, -echild)) ∧
    (BUS_IS_OPEN bus.state = true →
      sd_bus_send env bus m pid wantSerial = (bus, m, -echild)) ∧
    (BUS_IS_OPEN bus.state = true → m.type = MsgType.methodCall →
      m.noReplyExpected = false →
      sd_bus_send_with_reply env bus m cb usec pid wantSerial = (bus, m, -echild)) ∧
    sd_bus_close bus pid = bus := by
  have hpc : bus_pid_changed bus pid = true := by
    simp [bus_pid_changed, hpid]
  refine ⟨?_, ?_, ?_, ?_, ?_, ?_⟩
  · unfold sd_bus_process
    simp [hpc]
  · unfold sd_bus_add_filter
    simp [hpc]
  · intro hs
    unfold sd_bus_send_with_reply_cancel
    simp [hs, hpc]
  · intro ho
    unfold sd_bus_send
    simp [ho, hpc]
  · intro ho ht hnr
    unfold sd_bus_send_with_reply
    simp [ho, ht, hnr, hpc]
  · unfold sd_bus_close
    by_cases hcl : bus.state = BusState.closed <;> simp [hcl, hpc]

/-- Witness for C7: the guarded entry points at a concrete bus invoked
from pid 101 while the recorded creator pid is 100. -/
theorem C7_pid_guard_witness :
    sd_bus_process mkEnv busW7 101 false = (busW7, -echild, none, []) ∧
    sd_bus_add_filter busW7 101 3 = (busW7, -echild) ∧
    (5 ≠ 0 → sd_bus_send_with_reply_cancel busW7 101 5 = (busW7, -echild)) ∧
    (BUS_IS_OPEN busW7.state = true →
      sd_bus_send mkEnv busW7 (mkMsg MsgType.methodCall 0 0) 101 true
        = (busW7, mkMsg MsgType.methodCall 0 0, -echild)) ∧
    (BUS_IS_OPEN busW7.state = true → (mkMsg MsgType.methodCall 0 0).type = MsgType.methodCall →
      (mkMsg MsgType.methodCall 0 0).noReplyExpected = false →
      sd_bus_send_with_reply mkEnv busW7 (mkMsg MsgType.methodCall 0 0) 3 0 101 true
        = (busW7, mkMsg MsgType.methodCall 0 0, -echild)) ∧
    sd_bus_close busW7 101 = busW7 :=
  C7_pid_guard mkEnv busW7 101 (mkMsg MsgType.methodCall 0 0) 3 5 0 false true (by decide)

/-- Counterexample for C7 as stated: sd_bus_attach_event performs no
process-identity check, so invoked from pid 101 on a connection created
by pid 100 it succeeds (returns 0) instead of failing with -ECHILD,
and it mutates the connection by attaching the event sources. -/
theorem C7_pid_guard_counterexample :
    (mkBus BusState.running).originalPid ≠ 101 ∧
    (sd_bus_attach_event evAllOk (mkBus BusState.running) 101).2 = 0 ∧
    (sd_bus_attach_event evAllOk (mkBus BusState.running) 101).2 ≠ -echild ∧
    (sd_bus_attach_event evAllOk (mkBus BusState.running) 101).1.eventAttached = true := by
  decide

/-- Claim C8 amended: after close() the connection is in the Closed
state and the calls that require an open connection (sd_bus_send,
sd_bus_send_with_reply, sd_bus_process) return -ENOTCONN; however,
contrary to the claim as stated, not every public call does:
sd_bus_add_filter succeeds (returns 0) and cancel returns 0, as
neither has a state guard. -/
theorem C8_closed_calls (env : Env) (bus : SdBus) (pid : Nat) (m : Message)
    (cb s : Nat) (usec : Nat) (wantRet wantSerial : Bool)
    (hpid : bus.originalPid = pid)
    (hproc : bus.processing = false) :
    (sd_bus_close bus pid).state = BusState.closed ∧
    sd_bus_send env (sd_bus_close bus pid) m pid wantSerial
      = (sd_bus_close bus pid, m, -enotconn) ∧
    sd_bus_send_with_reply env (sd_bus_close bus pid) m cb usec pid wantSerial
      = (sd_bus_close bus pid, m, -enotconn) ∧
    sd_bus_process env (sd_bus_close bus pid) pid wantRet
      = (sd_bus_close bus pid, -enotconn, none, []) ∧
    (sd_bus_add_filter (sd_bus_close bus pid) pid cb).2 = 0 ∧
    (hashmap_contains (sd_bus_close bus pid).replyCallbacks s = false → s ≠ 0 →
      sd_bus_send_with_reply_cancel (sd_bus_close bus pid) pid s
        = (sd_bus_close bus pid, 0)) := by
  have hpc : bus_pid_changed bus pid = false := by simp [bus_pid_changed, hpid]
  have hfields : (sd_bus_close bus pid).state = BusState.closed ∧
      (sd_bus_close bus pid).originalPid = bus.originalPid ∧
      (sd_bus_close bus pid).processing = bus.processing := by
    unfold sd_bus_close sd_bus_detach_event bus_close_fds
    by_cases h1 : bus.state = BusState.closed
    · simp [h1, hpc]
    · simp only [h1, if_false, hpc, Bool.false_eq_true]
      split_ifs <;> simp_all
  have hpc2 : bus_pid_changed (sd_bus_close bus pid) pid = false := by
    simp [bus_pid_changed, hfields.2.1, hpid]
  have hno : BUS_IS_OPEN (sd_bus_close bus pid).state = false := by
    simp [BUS_IS_OPEN, hfields.1]
  refine ⟨hfields.1, ?_, ?_, ?_, ?_, ?_⟩
  · unfold sd_bus_send
    simp [hno]
  · unfold sd_bus_send_with_reply
    simp [hno]
  · unfold sd_bus_process
    rw [hfields.1]
    simp [hpc2, hfields.2.2, hproc, hfields.1]
  · unfold sd_bus_add_filter
    simp [hpc2]
  · intro hnc hs
    exact cancel_not_found hs (by rw [hfields.2.1, hpid]) hnc

/-- Witness for C8 at a concrete running bus that gets closed. -/
theorem C8_closed_calls_witness :
    (sd_bus_close busW8 100).state = BusState.closed ∧
    sd_bus_send mkEnv (sd_bus_close busW8 100) (mkMsg MsgType.methodCall 0 0) 100 true
      = (sd_bus_close busW8 100, mkMsg MsgType.methodCall 0 0, -enotconn) ∧
    sd_bus_send_with_reply mkEnv (sd_bus_close busW8 100) (mkMsg MsgType.methodCall 0 0) 3 0
        100 true
      = (sd_bus_close busW8 100, mkMsg MsgType.methodCall 0 0, -enotconn) ∧
    sd_bus_process mkEnv (sd_bus_close busW8 100) 100 false
      = (sd_bus_close busW8 100, -enotconn, none, []) ∧
    (sd_bus_add_filter (sd_bus_close busW8 100) 100 3).2 = 0 ∧
    (hashmap_contains (sd_bus_close busW8 100).replyCallbacks 5 = false → 5 ≠ 0 →
      sd_bus_send_with_reply_cancel (sd_bus_close busW8 100) 100 5
        = (sd_bus_close busW8 100, 0)) :=
  C8_closed_calls mkEnv busW8 100 (mkMsg MsgType.methodCall 0 0) 3 5 0 false true
    (by decide) (by decide)

/-- Counterexample for C8 as stated: after close(), sd_bus_add_filter
succeeds (returns 0, prepending the filter) and cancel returns 0, so
not every subsequent public call returns -ENOTCONN. -/
theorem C8_closed_calls_counterexample :
    (sd_bus_close (mkBus BusState.running) 100).state = BusState.closed ∧
    (sd_bus_add_filter (sd_bus_close (mkBus BusState.running) 100) 100 5).2 = 0 ∧
    (sd_bus_add_filter (sd_bus_close (mkBus BusState.running) 100) 100 5).2 ≠ -enotconn ∧
    (sd_bus_send_with_reply_cancel (sd_bus_close (mkBus BusState.running) 100) 100 9).2
      ≠ -enotconn := by decide

theorem sd_bus_close_addr_fields (bus : SdBus) (pid : Nat) :
    (sd_bus_close bus pid).cand = bus.cand ∧
    (sd_bus_close bus pid).lastConnectError = bus.lastConnectError ∧
    (sd_bus_close bus pid).address = bus.address ∧
    (sd_bus_close bus pid).addressIndex = bus.addressIndex ∧
    (sd_bus_close bus pid).originalPid = bus.originalPid := by
  unfold sd_bus_close
  by_cases h1 : bus.state = BusState.closed
  · simp [h1]
  · by_cases h2 : bus_pid_changed bus pid
    · simp [h1, h2]
    · unfold sd_bus_detach_event bus_close_fds
      by_cases h3 : bus.eventAttached <;> by_cases h4 : bus.isKernel <;>
        simp [h1, h2, h3, h4]

/-- Claim C4 amended: connect errors in a segment cause fallback to
the next parsed segment; segment-parser errors do NOT fall back but
return that error at once; exhaustion returns the last recorded
connect error, or -ECONNREFUSED when none was recorded. -/
theorem C4_address_fallback (env : AddrEnv) (b : SdBus) (pid : Nat) (fuel : Nat)
    (c : Cand) (e : Int)
    (hcand : b.cand = some c)
    (hconn : env.connect c = e) :
    (0 ≤ e → bus_start_address env pid (fuel + 1) b = some (sd_bus_close b pid, e)) ∧
    (e < 0 →
      (∀ b3 : SdBus,
        bus_parse_next_address env
            { sd_bus_close b pid with lastConnectError := (-e).toNat } = (b3, 1) →
        bus_start_address env pid (fuel + 1) b = bus_start_address env pid fuel b3) ∧
      (∀ b3 : SdBus, ∀ e2 : Int, e2 < 0 →
        bus_parse_next_address env
            { sd_bus_close b pid with lastConnectError := (-e).toNat } = (b3, e2) →
        bus_start_address env pid (fuel + 1) b = some (b3, e2)) ∧
      (∀ b3 : SdBus,
        bus_parse_next_address env
            { sd_bus_close b pid with lastConnectError := (-e).toNat } = (b3, 0) →
        bus_start_address env pid (fuel + 1) b
          = some (b3, if b3.lastConnectError ≠ 0 then -(b3.lastConnectError : Int)
                      else -econnrefused))) := by
  have hfc := sd_bus_close_addr_fields b pid
  have hcand2 : (sd_bus_close b pid).cand = some c := by rw [hfc.1, hcand]
  constructor
  · intro he
    show bus_start_address env pid (Nat.succ fuel) b = some (sd_bus_close b pid, e)
    unfold bus_start_address
    simp [hcand2, hconn, he]
  · intro he
    have hne : ¬ (0 ≤ e) := by omega
    refine ⟨?_, ?_, ?_⟩
    · intro b3 hp
      simp only [hcand2] at hp
      show bus_start_address env pid (Nat.succ fuel) b = bus_start_address env pid fuel b3
      conv_lhs => rw [bus_start_address]
      simp [hcand2, hconn, hne, hp]
    · intro b3 e2 he2 hp
      simp only [hcand2] at hp
      show bus_start_address env pid (Nat.succ fuel) b = some (b3, e2)
      unfold bus_start_address
      simp [hcand2, hconn, hne, hp, he2, show e2 ≠ 0 by omega]
    · intro b3 hp
      simp only [hcand2] at hp
      show bus_start_address env pid (Nat.succ fuel) b
        = some (b3, if b3.lastConnectError ≠ 0 then -(b3.lastConnectError : Int)
                    else -econnrefused)
      unfold bus_start_address
      simp [hcand2, hconn, hne, hp]

/-- Witness for C4 at a concrete bus with a parsed socket candidate
whose dialer fails with -7. -/
theorem C4_address_fallback_witness :
    (0 ≤ (-7 : Int) →
      bus_start_address addrEnvW4 100 (3 + 1) busW4 = some (sd_bus_close busW4 100, -7)) ∧
    ((-7 : Int) < 0 →
      (∀ b3 : SdBus,
        bus_parse_next_address addrEnvW4
            { sd_bus_close busW4 100 with lastConnectError := (-(-7 : Int)).toNat } = (b3, 1) →
        bus_start_address addrEnvW4 100 (3 + 1) busW4 = bus_start_address addrEnvW4 100 3 b3) ∧
      (∀ b3 : SdBus, ∀ e2 : Int, e2 < 0 →
        bus_parse_next_address addrEnvW4
            { sd_bus_close busW4 100 with lastConnectError := (-(-7 : Int)).toNat } = (b3, e2) →
        bus_start_address addrEnvW4 100 (3 + 1) busW4 = some (b3, e2)) ∧
      (∀ b3 : SdBus,
        bus_parse_next_address addrEnvW4
            { sd_bus_close busW4 100 with lastConnectError := (-(-7 : Int)).toNat } = (b3, 0) →
        bus_start_address addrEnvW4 100 (3 + 1) busW4
          = some (b3, if b3.lastConnectError ≠ 0 then -(b3.lastConnectError : Int)
                      else -econnrefused))) :=
  C4_address_fallback addrEnvW4 busW4 100 3 Cand.sock (-7) rfl rfl

/-- Counterexample for C4 as stated: the first segment of the address
fails to parse while the second segment parses and its dialer
succeeds, yet the connect attempt returns the parse error instead of
falling back to the second segment (the second conjunct shows the
very same engine succeeds when started directly on the second
segment). -/
theorem C4_address_fallback_counterexample :
    (bus_start_address addrEnvX4 100 10 busX4).map (fun p => p.2) = some (-einval) ∧
    (bus_start_address addrEnvX4 100 10
        { busX4 with address := some "unix:path=/tmp/bus".toList }).map (fun p => p.2)
      = some 0 := by
  constructor <;>
  simp [bus_start_address, bus_parse_next_address, scanAddress, addrEnvX4, busX4, mkBus,
    sd_bus_close, bus_pid_changed, bus_reset_parsed_address, sd_bus_detach_event, bus_close_fds,
    einval, transportCand]

/-- Claim C6: sealing is idempotent and serial assignment exactly-once:
the first seal of a message assigns the incremented counter value,
strictly greater than every serial assigned before (any such serial is
at most the current counter), and sealing an already sealed message
changes neither the message nor the counter. -/
theorem C6_seal_exactly_once (b : SdBus) (m : Message)
    (hv : m.version ≤ b.messageVersion) (hof : b.serial + 1 < 2 ^ 64) :
    (m.sealed = true → bus_seal_message b m = Except.ok (b, m)) ∧
    (m.sealed = false →
      bus_seal_message b m
        = Except.ok ({ b with serial := b.serial + 1 },
                     { m with serial := b.serial + 1, sealed := true }) ∧
      ∀ s0, s0 ≤ b.serial → s0 < b.serial + 1) := by
  have hv2 : ¬ (m.version > b.messageVersion) := by omega
  constructor
  · intro hs
    simp [bus_seal_message, hv2, hs]
  · intro hs
    refine ⟨?_, fun s0 h => by omega⟩
    simp [bus_seal_message, hv2, hs, bus_message_seal]
    omega

/-- Witness for C6 at a concrete bus and unsealed message. -/
theorem C6_seal_exactly_once_witness :
    (msgW6.sealed = true → bus_seal_message busW6 msgW6 = Except.ok (busW6, msgW6)) ∧
    (msgW6.sealed = false →
      bus_seal_message busW6 msgW6
        = Except.ok ({ busW6 with serial := busW6.serial + 1 },
                     { msgW6 with serial := busW6.serial + 1, sealed := true }) ∧
      ∀ s0, s0 ≤ busW6.serial → s0 < busW6.serial + 1) :=
  C6_seal_exactly_once busW6 msgW6 (by decide) (by decide)
